import Mathlib

/-!
Verification development for the Property Stewards inspector-interface system.

The relational store (MySQL, `schema.sql`) is modelled as lists of rows with
explicit auto-increment counters; `new Date()` timestamps are threaded as a
`now : Nat` argument; the JSON `conversations.context` column is modelled
structurally (serialize/parse as identity) as an association list of fields,
matching the free-form object the JavaScript code round-trips.  External
collaborators (the OpenAI intent classifier, WhatsApp delivery, PDF rendering)
are inputs: the classifier result, the generated reply text, the PDF buffer and
the delivery outcome are parameters of the handler functions, exactly at the
points where `src/handler.js` awaits them.
-/

namespace PropSteward

/-- Values stored in the free-form JSON conversation context. -/
inductive CtxVal where
  | null : CtxVal
  | num (n : Nat) : CtxVal
  | str (s : String) : CtxVal
deriving DecidableEq, Repr

/-- The conversation context: a JSON object, i.e. a list of named fields.
JavaScript object field read/update semantics. -/
abbrev Ctx := List (String × CtxVal)

/-- JavaScript property read `ctx[k]`. -/
def ctxGet (c : Ctx) (k : String) : Option CtxVal :=
  (c.find? (fun p => p.1 == k)).map (fun p => p.2)

/-- JavaScript property write `ctx[k] = v` (replace in place, else append). -/
def ctxSet (c : Ctx) (k : String) (v : CtxVal) : Ctx :=
  if c.any (fun p => p.1 == k) then
    c.map (fun p => if p.1 == k then (k, v) else p)
  else
    c ++ [(k, v)]

/-- JavaScript truthiness of a context field (`if (!ctx.field)`):
absent, `null`, `0` and the empty string are falsy. -/
def truthy : Option CtxVal → Bool
  | none => false
  | some CtxVal.null => false
  | some (CtxVal.num n) => n != 0
  | some (CtxVal.str s) => s != ""

/-- Numeric value of a context field, as the code uses it for SQL parameters
(ids are positive in reachable states; non-numeric junk reads as 0). -/
def ctxNat (c : Ctx) (k : String) : Nat :=
  match ctxGet c k with
  | some (CtxVal.num n) => n
  | _ => 0

/-! Table rows, following `schema.sql`. -/

/-- Row of `users`. -/
structure UserRow where
  id : Nat
  name : String
  phone : String
  role : String
  whatsapp_id : Option String
deriving DecidableEq, Repr

/-- Row of `properties`. -/
structure PropertyRow where
  id : Nat
  address : String
  city : String
  state : String
  postal_code : String
  property_type : String
deriving DecidableEq, Repr

/-- Row of `contracts`. -/
structure ContractRow where
  id : Nat
  customer_id : Nat
  property_id : Nat
deriving DecidableEq, Repr

/-- Row of `checklist_templates`. -/
structure TemplateRow where
  id : Nat
  name : String
deriving DecidableEq, Repr

/-- Row of `checklist_template_items`. -/
structure TemplateItemRow where
  id : Nat
  template_id : Nat
  name : String
  description : String
  item_order : Nat
  requires_media : Bool
  requires_comment : Bool
deriving DecidableEq, Repr

/-- Row of `work_orders`. -/
structure WorkOrderRow where
  id : Nat
  contract_id : Nat
  inspector_id : Nat
  checklist_template_id : Nat
  scheduled_date : String
  scheduled_time_window : String
  status : String
deriving DecidableEq, Repr

/-- Row of `checklist_instances`. -/
structure InstanceRow where
  id : Nat
  work_order_id : Nat
  status : String
  started_at : Option Nat
  completed_at : Option Nat
deriving DecidableEq, Repr

/-- Row of `checklist_instance_items`. -/
structure InstanceItemRow where
  id : Nat
  checklist_instance_id : Nat
  template_item_id : Nat
  status : String
  comments : Option String
  completed_at : Option Nat
deriving DecidableEq, Repr

/-- Row of `media` (binary content as an opaque string). -/
structure MediaRow where
  id : Nat
  checklist_instance_item_id : Nat
  media_type : String
  file_name : String
  content_type : String
  content : String
deriving DecidableEq, Repr

/-- Row of `reports` (`work_order_id` is UNIQUE in the schema). -/
structure ReportRow where
  id : Nat
  work_order_id : Nat
  report_file : Option String
  generated_at : Option Nat
deriving DecidableEq, Repr

/-- Row of `conversations`; the JSON `context` column is kept structurally. -/
structure ConversationRow where
  id : Nat
  user_id : Nat
  context : Ctx
  active : Bool
  last_message_at : Nat
deriving DecidableEq, Repr

/-- Row of `messages`. -/
structure MessageRow where
  id : Nat
  conversation_id : Nat
  sender_id : Nat
  message_type : String
  content : String
  media_id : Option Nat
  whatsapp_message_id : String
deriving DecidableEq, Repr

/-- Row of `notifications`. -/
structure NotificationRow where
  id : Nat
  user_id : Nat
  notification_type : String
  message : String
  related_entity_type : String
  related_entity_id : Nat
  status : String
deriving DecidableEq, Repr

/-- The relational store: one list per table plus auto-increment counters. -/
structure DB where
  users : List UserRow
  properties : List PropertyRow
  contracts : List ContractRow
  checklist_templates : List TemplateRow
  checklist_template_items : List TemplateItemRow
  work_orders : List WorkOrderRow
  checklist_instances : List InstanceRow
  checklist_instance_items : List InstanceItemRow
  media : List MediaRow
  reports : List ReportRow
  conversations : List ConversationRow
  messages : List MessageRow
  notifications : List NotificationRow
  nextInstanceId : Nat
  nextItemId : Nat
  nextMediaId : Nat
  nextReportId : Nat
  nextConversationId : Nat
  nextMessageId : Nat
  nextNotificationId : Nat
deriving DecidableEq, Repr

/-! String ordering: the embedded collation for `ORDER BY <varchar> ASC`,
lexicographic on character codes (binary collation). -/

/-- Strict lexicographic order on character lists by code point. -/
def strLtList : List Char → List Char → Bool
  | [], [] => false
  | [], _ :: _ => true
  | _ :: _, [] => false
  | a :: as, b :: bs =>
    if a.toNat < b.toNat then true
    else if b.toNat < a.toNat then false
    else strLtList as bs

/-- String comparison used for `ORDER BY ... ASC` on varchar columns. -/
def strLe (a b : String) : Bool := !(strLtList b.data a.data)

/-- Insert an element into a sorted list (auxiliary of `sortBy`). -/
def insertSorted {α : Type} (le : α → α → Bool) (x : α) : List α → List α
  | [] => [x]
  | y :: ys => if le x y then x :: y :: ys else y :: insertSorted le x ys

/-- Insertion sort: the model of SQL `ORDER BY` (structurally recursive so
that concrete stores evaluate). -/
def sortBy {α : Type} (le : α → α → Bool) : List α → List α
  | [] => []
  | x :: xs => insertSorted le x (sortBy le xs)

/-! The database layer: `src/db/index.js`. -/

/-- One row of the `getInspectorWorkOrders` / `getWorkOrderDetails` join
(`work_orders` joined to `contracts`, `properties`, `users`,
`checklist_templates`). -/
structure WorkOrderView where
  id : Nat
  contract_id : Nat
  inspector_id : Nat
  checklist_template_id : Nat
  scheduled_date : String
  scheduled_time_window : String
  status : String
  customer_id : Nat
  address : String
  city : String
  state : String
  postal_code : String
  property_type : String
  checklist_template_name : String
  customer_name : String
  customer_phone : String
deriving DecidableEq, Repr

/-- The inner join of one work order with its contract, property, customer and
checklist template; `none` when any joined row is missing (INNER JOIN drops
the work order). -/
def joinWorkOrderRow (db : DB) (wo : WorkOrderRow) : Option WorkOrderView :=
  match db.contracts.find? (fun c => c.id == wo.contract_id) with
  | none => none
  | some c =>
    match db.properties.find? (fun p => p.id == c.property_id) with
    | none => none
    | some p =>
      match db.users.find? (fun u => u.id == c.customer_id) with
      | none => none
      | some cust =>
        match db.checklist_templates.find? (fun t => t.id == wo.checklist_template_id) with
        | none => none
        | some tmpl =>
          some { id := wo.id, contract_id := wo.contract_id,
                 inspector_id := wo.inspector_id,
                 checklist_template_id := wo.checklist_template_id,
                 scheduled_date := wo.scheduled_date,
                 scheduled_time_window := wo.scheduled_time_window,
                 status := wo.status, customer_id := c.customer_id,
                 address := p.address, city := p.city, state := p.state,
                 postal_code := p.postal_code, property_type := p.property_type,
                 checklist_template_name := tmpl.name,
                 customer_name := cust.name, customer_phone := cust.phone }

/-- Rank of a work-order status in the `ORDER BY CASE` of
`getInspectorWorkOrders`: in_progress 0, scheduled 1, completed 2, else 3. -/
def statusRank (s : String) : Nat :=
  if s == "in_progress" then 0
  else if s == "scheduled" then 1
  else if s == "completed" then 2
  else 3

/-- The comparison realising `ORDER BY CASE status ..., scheduled_time_window ASC`. -/
def woLe (a b : WorkOrderView) : Bool :=
  statusRank a.status < statusRank b.status ||
    (statusRank a.status == statusRank b.status &&
      strLe a.scheduled_time_window b.scheduled_time_window)

/-- db.getInspectorWorkOrders: the work orders of an inspector on a date,
joined and ordered by status rank then time window. -/
def getInspectorWorkOrders (db : DB) (inspectorId : Nat) (date : String) :
    List WorkOrderView :=
  sortBy woLe (db.work_orders.filterMap (fun wo =>
    if wo.inspector_id == inspectorId && wo.scheduled_date == date then
      joinWorkOrderRow db wo
    else none))

/-- One checklist item as returned by `getWorkOrderChecklist`
(`checklist_instance_items` joined to `checklist_template_items`,
plus the per-item media count). -/
structure ChecklistItemView where
  id : Nat
  status : String
  comments : Option String
  completed_at : Option Nat
  name : String
  description : String
  requires_media : Bool
  requires_comment : Bool
  item_order : Nat
  media_count : Nat
deriving DecidableEq, Repr

/-- The item-view query of `getWorkOrderChecklist`: items of one instance
joined to their template items, ordered by `item_order`, with media counts. -/
def checklistItemsView (db : DB) (instId : Nat) : List ChecklistItemView :=
  sortBy (fun a b => decide (a.item_order ≤ b.item_order))
  (db.checklist_instance_items.filterMap (fun cii =>
    if cii.checklist_instance_id == instId then
      match db.checklist_template_items.find? (fun t => t.id == cii.template_item_id) with
      | some t =>
        some { id := cii.id, status := cii.status, comments := cii.comments,
               completed_at := cii.completed_at, name := t.name,
               description := t.description, requires_media := t.requires_media,
               requires_comment := t.requires_comment, item_order := t.item_order,
               media_count := (db.media.filter
                 (fun m => m.checklist_instance_item_id == cii.id)).length }
      | none => none
    else none))

/-- A checklist instance together with its item views. -/
structure Checklist where
  inst : InstanceRow
  items : List ChecklistItemView
deriving DecidableEq, Repr

/-- The item-copy loop of `getWorkOrderChecklist`: insert one pending
instance item per template item. -/
def insertInstanceItems (db : DB) (instId : Nat)
    (tmplItems : List TemplateItemRow) : DB :=
  tmplItems.foldl (fun d ti =>
    { d with
      checklist_instance_items := d.checklist_instance_items ++
        [{ id := d.nextItemId, checklist_instance_id := instId,
           template_item_id := ti.id, status := "pending",
           comments := none, completed_at := none }],
      nextItemId := d.nextItemId + 1 }) db

/-- db.getWorkOrderChecklist: fetch the checklist of a work order, CREATING
the instance (status not_started) and copying the template items if no
instance exists yet.  Errors when the creation path dereferences a missing
work order (the JS TypeError), with the partially-created instance kept. -/
def getWorkOrderChecklist (db : DB) (workOrderId : Nat) :
    DB × Except String Checklist :=
  match db.checklist_instances.find? (fun r => r.work_order_id == workOrderId) with
  | some inst => (db, Except.ok { inst := inst, items := checklistItemsView db inst.id })
  | none =>
    let inst : InstanceRow :=
      { id := db.nextInstanceId, work_order_id := workOrderId,
        status := "not_started", started_at := none, completed_at := none }
    let db1 := { db with
      checklist_instances := db.checklist_instances ++ [inst],
      nextInstanceId := db.nextInstanceId + 1 }
    match db1.work_orders.find? (fun w => w.id == workOrderId) with
    | none => (db1, Except.error "TypeError: cannot read checklist_template_id of null")
    | some wo =>
      let tmplItems :=
        sortBy (fun a b => decide (a.item_order ≤ b.item_order))
          (db1.checklist_template_items.filter
            (fun t => t.template_id == wo.checklist_template_id))
      let db2 := insertInstanceItems db1 inst.id tmplItems
      (db2, Except.ok { inst := inst, items := checklistItemsView db2 inst.id })

/-- db.startInspection: set the work order in_progress, then update the
existing instance (resume) or insert a fresh one, then return the checklist. -/
def startInspection (db : DB) (workOrderId : Nat) (now : Nat) :
    DB × Except String Checklist :=
  let db1 : DB := { db with work_orders := db.work_orders.map (fun w =>
    if w.id == workOrderId then { w with status := "in_progress" } else w) }
  let db2 : DB :=
    match db1.checklist_instances.find? (fun r => r.work_order_id == workOrderId) with
    | some inst =>
      { db1 with checklist_instances := db1.checklist_instances.map (fun r =>
          if r.id == inst.id then
            { r with started_at := some now, status := "in_progress" }
          else r) }
    | none =>
      { db1 with
        checklist_instances := db1.checklist_instances ++
          [{ id := db1.nextInstanceId, work_order_id := workOrderId,
             status := "in_progress", started_at := some now, completed_at := none }],
        nextInstanceId := db1.nextInstanceId + 1 }
  getWorkOrderChecklist db2 workOrderId

/-- db.updateChecklistItem: one UPDATE setting status, comments (the given
value replaces the column, NULL included) and completed_at. -/
def updateChecklistItem (db : DB) (itemId : Nat) (status : String)
    (comments : Option String) (now : Nat) : DB :=
  { db with checklist_instance_items := db.checklist_instance_items.map (fun it =>
      if it.id == itemId then
        { it with
          status := status,
          comments := comments,
          completed_at :=
            if status == "completed" || status == "issue_found" then some now
            else none }
      else it) }

/-- Work order details as returned by db.getWorkOrderDetails. -/
structure WorkOrderDetails where
  workOrder : WorkOrderView
  checklist : Checklist
deriving DecidableEq, Repr

/-- db.getWorkOrderDetails: the joined work order plus its checklist
(which lazily creates the instance when absent). -/
def getWorkOrderDetails (db : DB) (workOrderId : Nat) :
    DB × Except String (Option WorkOrderDetails) :=
  match db.work_orders.find? (fun w => w.id == workOrderId) with
  | none => (db, Except.ok none)
  | some wo =>
    match joinWorkOrderRow db wo with
    | none => (db, Except.ok none)
    | some wov =>
      match getWorkOrderChecklist db workOrderId with
      | (db1, Except.error e) => (db1, Except.error e)
      | (db1, Except.ok cl) =>
        (db1, Except.ok (some { workOrder := wov, checklist := cl }))

/-- db.completeInspection: refuse while pending items remain; otherwise mark
the instance and work order completed and INSERT the report row.  The insert
hits the UNIQUE(work_order_id) key of `reports`, so a pre-existing report
makes it throw, keeping the earlier updates (no transaction in the source). -/
def completeInspection (db : DB) (workOrderId : Nat) (now : Nat) :
    DB × Except String (Option WorkOrderDetails) :=
  match getWorkOrderChecklist db workOrderId with
  | (db1, Except.error e) => (db1, Except.error e)
  | (db1, Except.ok checklist) =>
    let incompleteItems := checklist.items.filter (fun it => it.status == "pending")
    if incompleteItems.length > 0 then
      (db1, Except.error ("Cannot complete inspection. " ++
        toString incompleteItems.length ++ " items are still pending."))
    else
      let db2 : DB := { db1 with checklist_instances := db1.checklist_instances.map (fun r =>
        if r.id == checklist.inst.id then
          { r with completed_at := some now, status := "completed" }
        else r) }
      let db3 : DB := { db2 with work_orders := db2.work_orders.map (fun w =>
        if w.id == workOrderId then { w with status := "completed" } else w) }
      if db3.reports.any (fun r => r.work_order_id == workOrderId) then
        (db3, Except.error "ER_DUP_ENTRY: duplicate entry for key reports.work_order_id")
      else
        let db4 := { db3 with
          reports := db3.reports ++
            [{ id := db3.nextReportId, work_order_id := workOrderId,
               report_file := none, generated_at := none }],
          nextReportId := db3.nextReportId + 1 }
        getWorkOrderDetails db4 workOrderId

/-- db.findInspectorByWhatsAppId. -/
def findInspectorByWhatsAppId (db : DB) (whatsappId : String) : Option UserRow :=
  db.users.find? (fun u => u.whatsapp_id == some whatsappId && u.role == "inspector")

/-- db.getOrCreateConversation: the active conversation of a user, created
with an empty context when absent. -/
def getOrCreateConversation (db : DB) (userId : Nat) : DB × ConversationRow :=
  match db.conversations.find? (fun c => c.user_id == userId && c.active) with
  | some c => (db, c)
  | none =>
    let c : ConversationRow :=
      { id := db.nextConversationId, user_id := userId, context := [],
        active := true, last_message_at := 0 }
    ({ db with
       conversations := db.conversations ++ [c],
       nextConversationId := db.nextConversationId + 1 }, c)

/-- Column values of a new `messages` row as the handlers insert it. -/
structure NewMessage where
  conversation_id : Nat
  sender_id : Nat
  message_type : String
  content : String
  whatsapp_message_id : String
deriving DecidableEq, Repr

/-- db.storeMessage: append-only insert into `messages`. -/
def storeMessage (db : DB) (m : NewMessage) : DB × Nat :=
  ({ db with
    messages := db.messages ++
      [{ id := db.nextMessageId, conversation_id := m.conversation_id,
         sender_id := m.sender_id, message_type := m.message_type,
         content := m.content, media_id := none,
         whatsapp_message_id := m.whatsapp_message_id }],
    nextMessageId := db.nextMessageId + 1 }, db.nextMessageId)

/-- db.updateConversationContext: atomic replace of the context plus the
last-activity timestamp. -/
def updateConversationContext (db : DB) (conversationId : Nat) (ctx : Ctx)
    (now : Nat) : DB :=
  { db with conversations := db.conversations.map (fun c =>
      if c.id == conversationId then
        { c with context := ctx, last_message_at := now }
      else c) }

/-- db.storeMedia: insert the downloaded binary bound to the given item. -/
def storeMedia (db : DB) (itemId : Nat) (mediaType fileName contentType content : String) :
    DB × Nat :=
  ({ db with
    media := db.media ++
      [{ id := db.nextMediaId, checklist_instance_item_id := itemId,
         media_type := mediaType, file_name := fileName,
         content_type := contentType, content := content }],
    nextMediaId := db.nextMediaId + 1 }, db.nextMediaId)

/-- db.storeReportPdf: UPDATE of the report row keyed by work order. -/
def storeReportPdf (db : DB) (workOrderId : Nat) (pdf : String) (now : Nat) : DB :=
  { db with reports := db.reports.map (fun r =>
      if r.work_order_id == workOrderId then
        { r with report_file := some pdf, generated_at := some now }
      else r) }

/-- db.createNotification. -/
def createNotification (db : DB) (userId : Nat) (ntype message entityType : String)
    (entityId : Nat) : DB :=
  { db with
    notifications := db.notifications ++
      [{ id := db.nextNotificationId, user_id := userId,
         notification_type := ntype, message := message,
         related_entity_type := entityType, related_entity_id := entityId,
         status := "pending" }],
    nextNotificationId := db.nextNotificationId + 1 }

/-! Report generation: `src/utils/pdf.js` `generateAndStoreReport`.  PDF
rendering itself is external; the rendered buffer is the `pdfBuf` argument.
The whole body is wrapped in try/catch returning a Bool, so every failure
path keeps the mutations made so far and reports `false`. -/

/-- pdf.generateAndStoreReport: render the report (requires details present
and the work order completed), store the PDF on the report row, then create
the admin and customer notifications. -/
def generateAndStoreReport (db : DB) (workOrderId : Nat) (pdfBuf : String)
    (now : Nat) : DB × Bool :=
  match getWorkOrderDetails db workOrderId with
  | (db1, Except.error _) => (db1, false)
  | (db1, Except.ok none) => (db1, false)
  | (db1, Except.ok (some details)) =>
    if details.workOrder.status != "completed" then (db1, false)
    else
      let db2 := storeReportPdf db1 workOrderId pdfBuf now
      match getWorkOrderDetails db2 workOrderId with
      | (db3, Except.error _) => (db3, false)
      | (db3, Except.ok none) => (db3, false)
      | (db3, Except.ok (some d2)) =>
        let db4 :=
          match db3.users.find? (fun u => u.role == "admin") with
          | some admin =>
            createNotification db3 admin.id "system"
              ("Inspection report for property at " ++ d2.workOrder.address ++
                " is now available.") "work_order" workOrderId
          | none => db3
        let db5 :=
          createNotification db4 d2.workOrder.customer_id "whatsapp"
            ("Your property inspection report for " ++ d2.workOrder.address ++
              " is now available.") "work_order" workOrderId
        (db5, true)

/-! The message handler: `src/handler.js`.  The OpenAI classifier is an
external collaborator: `extractIntent` returns the classifier output plus the
context it was given, unchanged (`src/openai.js`), so the classifier result is
an `IntentData` argument and the working context is the loaded context. -/

/-- Classifier-extracted parameters (`intentData.params`); absent fields are
`none`, and JavaScript falsy checks treat `0` and the empty string like
absence. -/
structure IntentParams where
  date : Option String
  workOrderId : Option Nat
  itemNumber : Option Nat
  comment : Option String
  issue : Option String
deriving DecidableEq, Repr

/-- Classifier output (`src/openai.js` `extractIntent`). -/
structure IntentData where
  intent : String
  params : IntentParams
deriving DecidableEq, Repr

/-- A normalized inbound message (`wassenger.parseWebhookData`). -/
structure InMessage where
  messageId : String
  sender : String
  type : String
  content : String
  caption : String
  filename : String
  mimeType : String
deriving DecidableEq, Repr

/-- A reply produced by the handler. -/
structure Reply where
  text : String
deriving DecidableEq, Repr

/-- The `view_jobs` listing text. -/
def formatWorkOrdersMessage (targetDate : String) (workOrders : List WorkOrderView) :
    String :=
  let header := "You have " ++ toString workOrders.length ++
    " inspection(s) scheduled for " ++ targetDate ++ ":\n\n"
  let body := workOrders.enum.foldl (fun acc iw =>
    acc ++ toString (iw.1 + 1) ++ ". *Work Order #" ++ toString iw.2.id ++ "*\n" ++
      "📍 " ++ iw.2.address ++ ", " ++ iw.2.city ++ ", " ++ iw.2.state ++ "\n" ++
      "🕒 " ++ iw.2.scheduled_time_window ++ "\n" ++
      "📋 " ++ iw.2.checklist_template_name ++ "\n" ++
      "📱 Customer: " ++ iw.2.customer_name ++ " (" ++ iw.2.customer_phone ++ ")\n" ++
      "Status: " ++ iw.2.status ++ "\n\n") header
  body ++ "To start an inspection, reply with: \x27Start inspection #[number]\x27"

/-- The `view_jobs` case: read-only listing for today or the requested date. -/
def viewJobsCase (db : DB) (inspector : UserRow) (p : IntentParams)
    (today : String) : String :=
  let targetDate :=
    match p.date with
    | some d => if d == "" then today else d
    | none => today
  let workOrders := getInspectorWorkOrders db inspector.id targetDate
  if workOrders.length == 0 then
    "You have no scheduled inspections for " ++ targetDate ++ "."
  else
    formatWorkOrdersMessage targetDate workOrders

/-- The checklist listing in the `start_inspection` success reply. -/
def formatChecklistMessage (workOrderId : Nat) (address city : String)
    (items : List ChecklistItemView) : String :=
  let header := "✅ *Inspection #" ++ toString workOrderId ++ " started!*\n\n" ++
    "📍 " ++ address ++ ", " ++ city ++ "\n\n" ++ "Here\x27s your checklist:\n\n"
  let body := items.enum.foldl (fun acc iw =>
    acc ++ toString (iw.1 + 1) ++ ". " ++ iw.2.name ++ "\n") header
  body ++ "\nTo update an item, send: \x27Update item #[number]\x27"

/-- The `start_inspection` case: ownership and completion checks on the
joined work-order details (whose lookup lazily creates the instance), then
`db.startInspection`, then context update. -/
def startInspectionCase (db : DB) (inspector : UserRow) (ctx : Ctx)
    (p : IntentParams) (now : Nat) : DB × Ctx × String :=
  match p.workOrderId with
  | none =>
    (db, ctx, "Please specify which inspection you\x27d like to start by providing the work order number.")
  | some workOrderId =>
    if workOrderId == 0 then
      (db, ctx, "Please specify which inspection you\x27d like to start by providing the work order number.")
    else
      match getWorkOrderDetails db workOrderId with
      | (db1, Except.error _) =>
        (db1, ctx, "Sorry, there was an error starting inspection #" ++
          toString workOrderId ++ ". Please try again.")
      | (db1, Except.ok none) =>
        (db1, ctx, "Work order #" ++ toString workOrderId ++
          " is not assigned to you or doesn\x27t exist.")
      | (db1, Except.ok (some details)) =>
        if details.workOrder.inspector_id != inspector.id then
          (db1, ctx, "Work order #" ++ toString workOrderId ++
            " is not assigned to you or doesn\x27t exist.")
        else if details.workOrder.status == "completed" then
          (db1, ctx, "Work order #" ++ toString workOrderId ++
            " has already been completed.")
        else
          match startInspection db1 workOrderId now with
          | (db2, Except.error _) =>
            (db2, ctx, "Sorry, there was an error starting inspection #" ++
              toString workOrderId ++ ". Please try again.")
          | (db2, Except.ok checklist) =>
            let ctx2 := ctxSet (ctxSet ctx "currentWorkOrder" (CtxVal.num workOrderId))
              "currentChecklistItem" CtxVal.null
            (db2, ctx2,
              formatChecklistMessage workOrderId details.workOrder.address
                details.workOrder.city checklist.items)

/-- The item-detail reply of the `update_item` case. -/
def formatItemMessage (itemNumber : Nat) (item : ChecklistItemView) : String :=
  let base := "*Item #" ++ toString itemNumber ++ ": " ++ item.name ++ "*\n\n" ++
    (if item.description == "" then "No description provided" else item.description) ++
    "\n\n" ++ "Current status: " ++ item.status ++ "\n"
  let withComments :=
    match item.comments with
    | some c => if c == "" then base else base ++ "Comments: " ++ c ++ "\n"
    | none => base
  let withMedia :=
    if item.media_count > 0 then
      withComments ++ "Media items: " ++ toString item.media_count ++ "\n"
    else withComments
  withMedia ++ "\nTo add a comment, reply with: \x27Comment: [your comment]\x27\n" ++
    "To mark as completed, reply with: \x27Complete\x27\n" ++
    "To mark as having issues, reply with: \x27Issue: [describe the issue]\x27\n" ++
    "To attach photos/videos, simply send the media with a caption.\n"

/-- The `update_item` case: range-check the 1-based item number against the
current checklist (whose lookup lazily creates the instance) and select the
item into the context. -/
def updateItemCase (db : DB) (ctx : Ctx) (p : IntentParams) :
    DB × Ctx × String :=
  if !(truthy (ctxGet ctx "currentWorkOrder")) then
    (db, ctx, "You need to start an inspection first before updating checklist items.")
  else
    match p.itemNumber with
    | none =>
      (db, ctx, "Please specify which checklist item you\x27d like to update by providing the item number.")
    | some itemNumber =>
      if itemNumber == 0 then
        (db, ctx, "Please specify which checklist item you\x27d like to update by providing the item number.")
      else
        match getWorkOrderChecklist db (ctxNat ctx "currentWorkOrder") with
        | (db1, Except.error _) =>
          (db1, ctx, "Sorry, there was an error retrieving the checklist item. Please try again.")
        | (db1, Except.ok checklist) =>
          if itemNumber < 1 || itemNumber > checklist.items.length then
            (db1, ctx, "Invalid item number. Please choose a number between 1 and " ++
              toString checklist.items.length ++ ".")
          else
            match checklist.items[itemNumber - 1]? with
            | some selectedItem =>
              let ctx2 := ctxSet ctx "currentChecklistItem" (CtxVal.num selectedItem.id)
              (db1, ctx2, formatItemMessage itemNumber selectedItem)
            | none =>
              (db1, ctx, "Sorry, there was an error retrieving the checklist item. Please try again.")

/-- The `add_comment` case: read the item to keep its status, then one
UPDATE through `db.updateChecklistItem` with the new comment text. -/
def addCommentCase (db : DB) (ctx : Ctx) (p : IntentParams) (now : Nat) :
    DB × Ctx × String :=
  if !(truthy (ctxGet ctx "currentWorkOrder")) ||
      !(truthy (ctxGet ctx "currentChecklistItem")) then
    (db, ctx, "Please select a checklist item first before adding a comment.")
  else
    let comment := (p.comment).getD ""
    if comment == "" then
      (db, ctx, "Please provide a comment to add to this item.")
    else
      match db.checklist_instance_items.find?
          (fun it => it.id == ctxNat ctx "currentChecklistItem") with
      | none =>
        (db, ctx, "Sorry, there was an error adding your comment. Please try again.")
      | some checklistItem =>
        let db1 := updateChecklistItem db (ctxNat ctx "currentChecklistItem")
          checklistItem.status (some comment) now
        (db1, ctx, "✅ Comment added successfully!")

/-- The `complete_item` case: set the item completed (passing NULL comments),
then count the remaining pending items of the current checklist. -/
def completeItemCase (db : DB) (ctx : Ctx) (now : Nat) : DB × Ctx × String :=
  if !(truthy (ctxGet ctx "currentWorkOrder")) ||
      !(truthy (ctxGet ctx "currentChecklistItem")) then
    (db, ctx, "Please select a checklist item first.")
  else
    let db1 := updateChecklistItem db (ctxNat ctx "currentChecklistItem")
      "completed" none now
    match getWorkOrderChecklist db1 (ctxNat ctx "currentWorkOrder") with
    | (db2, Except.error _) =>
      (db2, ctx, "Sorry, there was an error completing this item. Please try again.")
    | (db2, Except.ok checklist) =>
      let pendingItems := checklist.items.filter (fun it => it.status == "pending")
      if pendingItems.length == 0 then
        (db2, ctx, "✅ Item marked as completed! All checklist items are now complete. You can complete the inspection by sending \x27Complete inspection\x27.")
      else
        (db2, ctx, "✅ Item marked as completed! " ++
          toString pendingItems.length ++ " item(s) remaining.")

/-- The `issue_found` case: set the item status to issue_found with the issue
text as the comment. -/
def issueFoundCase (db : DB) (ctx : Ctx) (p : IntentParams) (now : Nat) :
    DB × Ctx × String :=
  if !(truthy (ctxGet ctx "currentWorkOrder")) ||
      !(truthy (ctxGet ctx "currentChecklistItem")) then
    (db, ctx, "Please select a checklist item first.")
  else
    let issue := (p.issue).getD ""
    let db1 := updateChecklistItem db (ctxNat ctx "currentChecklistItem")
      "issue_found" (some issue) now
    (db1, ctx, "⚠️ Item marked as having issues. Please add photos to document the issues.")

/-- The reply listing the blocking pending items. -/
def formatPendingItemsMessage (pendingItems : List ChecklistItemView) : String :=
  let header := "⚠️ You still have " ++ toString pendingItems.length ++
    " incomplete item(s). Please complete these items first:\n\n"
  pendingItems.enum.foldl (fun acc iw =>
    acc ++ toString (iw.1 + 1) ++ ". " ++ iw.2.name ++ "\n") header

/-- The `complete_inspection` case: gate on the pending items of the current
checklist; when none remain, run `db.completeInspection`, generate and store
the report, and clear the context. -/
def completeInspectionCase (db : DB) (ctx : Ctx) (pdfBuf : String) (now : Nat) :
    DB × Ctx × String :=
  if !(truthy (ctxGet ctx "currentWorkOrder")) then
    (db, ctx, "You need to start an inspection first before completing it.")
  else
    match getWorkOrderChecklist db (ctxNat ctx "currentWorkOrder") with
    | (db1, Except.error e) =>
      (db1, ctx, "Sorry, there was an error completing the inspection: " ++ e)
    | (db1, Except.ok checklist) =>
      let pendingItems := checklist.items.filter (fun it => it.status == "pending")
      if pendingItems.length > 0 then
        (db1, ctx, formatPendingItemsMessage pendingItems)
      else
        match completeInspection db1 (ctxNat ctx "currentWorkOrder") now with
        | (db2, Except.error e) =>
          (db2, ctx, "Sorry, there was an error completing the inspection: " ++ e)
        | (db2, Except.ok _) =>
          let db3 := (generateAndStoreReport db2 (ctxNat ctx "currentWorkOrder") pdfBuf now).1
          let ctx2 := ctxSet (ctxSet ctx "currentWorkOrder" CtxVal.null)
            "currentChecklistItem" CtxVal.null
          (db3, ctx2, "🎉 Inspection completed successfully! The report has been generated and notifications have been sent to the customer and admin.")

/-- The static help text of the `get_help` case. -/
def helpText : String :=
  "*Property Stewards - Inspector Help*\n\nHere are commands you can use:\n" ++
  "- \"Show my jobs today\" - View today\x27s inspections\n" ++
  "- \"Show jobs for [date]\" - View inspections for a specific date\n" ++
  "- \"Start inspection #[number]\" - Begin an inspection\n" ++
  "- \"Update item #[number]\" - Select a checklist item to update\n" ++
  "- \"Comment: [text]\" - Add a comment to the current item\n" ++
  "- \"Complete\" - Mark current item as completed\n" ++
  "- \"Issue: [text]\" - Mark item as having issues\n" ++
  "- \"Complete inspection\" - Finish the current inspection\n" ++
  "- \"Cancel\" - Cancel the current operation\n" ++
  "- \"Help\" - Show this help message\n\n" ++
  "To add photos or videos, simply send them with a caption."

/-- The intent switch of handler.processTextMessage: given the store after
the inbound message was logged, the inspector, and the working context,
perform the transition of the classified intent, producing the store, the
context to persist, and the reply text. -/
def dispatchIntent (db2 : DB) (inspector : UserRow) (updatedContext : Ctx)
    (intentData : IntentData) (genReply today pdfBuf : String) (now : Nat) :
    DB × Ctx × String :=
  if intentData.intent == "greeting" then
    (db2, updatedContext, "Hello " ++ inspector.name ++
      "! How can I assist you with your property inspections today?")
  else if intentData.intent == "view_jobs" then
    (db2, updatedContext, viewJobsCase db2 inspector intentData.params today)
  else if intentData.intent == "start_inspection" then
    startInspectionCase db2 inspector updatedContext intentData.params now
  else if intentData.intent == "update_item" then
    updateItemCase db2 updatedContext intentData.params
  else if intentData.intent == "add_comment" then
    addCommentCase db2 updatedContext intentData.params now
  else if intentData.intent == "complete_item" then
    completeItemCase db2 updatedContext now
  else if intentData.intent == "issue_found" then
    issueFoundCase db2 updatedContext intentData.params now
  else if intentData.intent == "complete_inspection" then
    completeInspectionCase db2 updatedContext pdfBuf now
  else if intentData.intent == "cancel" then
    (db2,
      ctxSet (ctxSet updatedContext "currentWorkOrder" CtxVal.null)
        "currentChecklistItem" CtxVal.null,
      "Operation cancelled. How else can I help you with your inspections today?")
  else if intentData.intent == "get_help" then
    (db2, updatedContext, helpText)
  else
    (db2, updatedContext, genReply)

/-- handler.processTextMessage: resolve the inspector, load (or create) the
active conversation, store the inbound message, dispatch on the classifier
intent, and persist the updated context.  `genReply` is the externally
generated fallback reply (`openai.generateResponse`), `pdfBuf` the externally
rendered report. -/
def processTextMessage (db : DB) (msg : InMessage) (intentData : IntentData)
    (genReply today pdfBuf : String) (now : Nat) : DB × Reply :=
  match findInspectorByWhatsAppId db msg.sender with
  | none =>
    (db, { text := "Sorry, your number is not registered as an inspector in our system. Please contact your administrator." })
  | some inspector =>
    let load := getOrCreateConversation db inspector.id
    let conversation := load.2
    let updatedContext := conversation.context
    let stored := storeMessage load.1
      { conversation_id := conversation.id, sender_id := inspector.id,
        message_type := "text", content := msg.content,
        whatsapp_message_id := msg.messageId }
    let db2 := stored.1
    let step : DB × Ctx × String :=
      dispatchIntent db2 inspector updatedContext intentData genReply today pdfBuf now
    let db4 := updateConversationContext step.1 conversation.id step.2.1 now
    (db4, { text := step.2.2 })

/-- handler.processMediaMessage: resolve the inspector, load the conversation,
store the message, and only when both a current work order and a current
checklist item are set download the media (`download` is the external
download outcome), store it bound to the current item, and link it to the
stored message row.  Without a selected item it returns right after storing
the message: the media is neither downloaded nor stored. -/
def processMediaMessage (db : DB) (msg : InMessage)
    (download : Except String String) (_now : Nat) : DB × Reply :=
  match findInspectorByWhatsAppId db msg.sender with
  | none =>
    (db, { text := "Sorry, your number is not registered as an inspector in our system. Please contact your administrator." })
  | some inspector =>
    let load := getOrCreateConversation db inspector.id
    let conversation := load.2
    let context := conversation.context
    let stored := storeMessage load.1
      { conversation_id := conversation.id, sender_id := inspector.id,
        message_type := msg.type, content := msg.caption,
        whatsapp_message_id := msg.messageId }
    let db2 := stored.1
    if !(truthy (ctxGet context "currentWorkOrder")) ||
        !(truthy (ctxGet context "currentChecklistItem")) then
      (db2, { text := "Please select a checklist item first before sending media. Use \x27Update item #[number]\x27 to select an item." })
    else
      match download with
      | Except.error _ =>
        (db2, { text := "Sorry, there was an error processing your " ++ msg.type ++
          ". Please try again." })
      | Except.ok mediaBuffer =>
        let itemId := ctxNat context "currentChecklistItem"
        let storedMedia := storeMedia db2 itemId msg.type msg.filename
          msg.mimeType mediaBuffer
        let db3 := storedMedia.1
        let mediaId := storedMedia.2
        let db4 : DB := { db3 with messages := db3.messages.map (fun m =>
          if m.whatsapp_message_id == msg.messageId then
            { m with media_id := some mediaId }
          else m) }
        let mediaCount := (db4.media.filter
          (fun m => m.checklist_instance_item_id == itemId)).length
        (db4, { text := "✅ " ++ msg.type ++
          " uploaded successfully! You now have " ++ toString mediaCount ++
          " media item(s) for this checklist item." })

/-- The response returned to the webhook platform. -/
structure WebhookResponse where
  statusCode : Nat
  body : String
deriving DecidableEq, Repr

/-- handler.main: parse the webhook (the parsed message is the `parsed`
argument, `none` for non-message events), dispatch by message type, send the
reply (`send` is the external delivery outcome), and acknowledge.  Any error
escaping the try block — in this model a failed delivery — is caught and
answered with a 500 response. -/
def main (db : DB) (parsed : Option InMessage) (intentData : IntentData)
    (genReply today pdfBuf : String) (download : Except String String)
    (send : Except String Unit) (now : Nat) : DB × WebhookResponse :=
  match parsed with
  | none => (db, { statusCode := 200, body := "Not a valid or incoming message event" })
  | some message =>
    let step : DB × Reply :=
      if message.type == "chat" then
        processTextMessage db message intentData genReply today pdfBuf now
      else if message.type == "image" || message.type == "video" ||
          message.type == "audio" then
        processMediaMessage db message download now
      else
        (db, { text := "Sorry, I don\x27t support " ++ message.type ++
          " messages yet. Please send text, images, or videos." })
    match send with
    | Except.ok _ => (step.1, { statusCode := 200, body := "success" })
    | Except.error _ => (step.1, { statusCode := 500, body := "Internal server error" })

/-! Concrete fixtures used to instantiate the theorems on small stores. -/

/-- The empty store (all auto-increment counters at 1, as in MySQL). -/
def emptyDB : DB :=
  { users := [], properties := [], contracts := [], checklist_templates := [],
    checklist_template_items := [], work_orders := [], checklist_instances := [],
    checklist_instance_items := [], media := [], reports := [],
    conversations := [], messages := [], notifications := [],
    nextInstanceId := 1, nextItemId := 1, nextMediaId := 1, nextReportId := 1,
    nextConversationId := 1, nextMessageId := 1, nextNotificationId := 1 }

/-- A registered inspector (the demo inspector of `schema.sql`). -/
def joeInspector : UserRow :=
  { id := 1, name := "Inspector Joe", phone := "2345678901",
    role := "inspector", whatsapp_id := some "12345678901" }

/-- Classifier params with every field absent. -/
def noParams : IntentParams :=
  { date := none, workOrderId := none, itemNumber := none,
    comment := none, issue := none }

/-- A template item fixture. -/
def exteriorItem : TemplateItemRow :=
  { id := 1, template_id := 1, name := "Exterior Inspection",
    description := "Check the exterior of the property", item_order := 1,
    requires_media := true, requires_comment := true }

/-- A work order fixture with the given status. -/
def exampleWorkOrder (status : String) : WorkOrderRow :=
  { id := 1, contract_id := 1, inspector_id := 1, checklist_template_id := 1,
    scheduled_date := "2025-01-02", scheduled_time_window := "9:00 AM - 12:00 PM",
    status := status }

/-- Store for the duplicate-delivery experiment: a registered inspector with
an active empty-context conversation. -/
def dupDB : DB :=
  { emptyDB with
    users := [joeInspector],
    conversations := [{ id := 1, user_id := 1, context := [], active := true,
                        last_message_at := 0 }],
    nextConversationId := 2 }

/-- A text message fixture. -/
def helloMsg : InMessage :=
  { messageId := "wamid-001", sender := "12345678901", type := "chat",
    content := "hello", caption := "", filename := "", mimeType := "" }

/-- A greeting classifier result. -/
def greetingIntent : IntentData := { intent := "greeting", params := noParams }

/-- A cancel classifier result. -/
def cancelIntent : IntentData := { intent := "cancel", params := noParams }

/-- A complete_inspection classifier result. -/
def completeInspectionIntent : IntentData :=
  { intent := "complete_inspection", params := noParams }

/-- Store with a fully completed inspection: completed work order, completed
instance with one completed item, and the report row already inserted. -/
def completedDB : DB :=
  { emptyDB with
    users := [joeInspector],
    work_orders := [exampleWorkOrder "completed"],
    checklist_templates := [{ id := 1, name := "Residential Property Inspection" }],
    checklist_template_items := [exteriorItem],
    checklist_instances := [{ id := 1, work_order_id := 1, status := "completed",
                              started_at := some 0, completed_at := some 0 }],
    checklist_instance_items := [{ id := 1, checklist_instance_id := 1,
                                   template_item_id := 1, status := "completed",
                                   comments := none, completed_at := some 0 }],
    reports := [{ id := 1, work_order_id := 1, report_file := none,
                  generated_at := none }],
    nextInstanceId := 2, nextItemId := 2, nextReportId := 2 }

/-- Store with a scheduled work order whose checklist was never touched:
no ChecklistInstance exists yet. -/
def freshWorkOrderDB : DB :=
  { emptyDB with
    users := [joeInspector],
    work_orders := [exampleWorkOrder "scheduled"],
    checklist_templates := [{ id := 1, name := "Residential Property Inspection" }],
    checklist_template_items := [exteriorItem] }

/-- Store for the unbound-media scenario: the conversation has a current work
order but no current checklist item, and the media table is empty. -/
def noItemDB : DB :=
  { emptyDB with
    users := [joeInspector],
    conversations := [{ id := 1, user_id := 1,
                        context := [("currentWorkOrder", CtxVal.num 1)],
                        active := true, last_message_at := 0 }],
    nextConversationId := 2 }

/-- An image message fixture with a caption. -/
def frontDoorMsg : InMessage :=
  { messageId := "wamid-009", sender := "12345678901", type := "image",
    content := "", caption := "front door damage", filename := "door.jpg",
    mimeType := "image/jpeg" }

/-- Store whose conversation context carries a free-form field alongside the
workflow fields. -/
def freeformDB : DB :=
  { emptyDB with
    users := [joeInspector],
    conversations := [{ id := 1, user_id := 1,
                        context := [("freeform", CtxVal.str "junk"),
                                    ("currentWorkOrder", CtxVal.num 1),
                                    ("currentChecklistItem", CtxVal.num 2)],
                        active := true, last_message_at := 0 }],
    nextConversationId := 2 }

/-- Store with a single pending checklist item carrying an existing comment. -/
def commentedItemDB : DB :=
  { emptyDB with
    checklist_template_items := [exteriorItem],
    checklist_instances := [{ id := 1, work_order_id := 1, status := "in_progress",
                              started_at := some 0, completed_at := none }],
    checklist_instance_items := [{ id := 1, checklist_instance_id := 1,
                                   template_item_id := 1, status := "pending",
                                   comments := some "old note", completed_at := none }],
    nextInstanceId := 2, nextItemId := 2 }

/-- Store for the complete_inspection transition: an in-progress inspection
with a current work order in the context, one pending item, no report row. -/
def inProgressDB : DB :=
  { emptyDB with
    users := [joeInspector],
    work_orders := [exampleWorkOrder "in_progress"],
    checklist_templates := [{ id := 1, name := "Residential Property Inspection" }],
    checklist_template_items := [exteriorItem],
    checklist_instances := [{ id := 1, work_order_id := 1, status := "in_progress",
                              started_at := some 0, completed_at := none }],
    checklist_instance_items := [{ id := 1, checklist_instance_id := 1,
                                   template_item_id := 1, status := "pending",
                                   comments := none, completed_at := none }],
    conversations := [{ id := 1, user_id := 1,
                        context := [("currentWorkOrder", CtxVal.num 1)],
                        active := true, last_message_at := 0 }],
    nextInstanceId := 2, nextItemId := 2, nextConversationId := 2 }

/-- A context where work order 1 and checklist item 1 are selected. -/
def itemSelectedCtx : Ctx :=
  [("currentWorkOrder", CtxVal.num 1), ("currentChecklistItem", CtxVal.num 1)]

/-- Classifier params carrying a comment. -/
def commentParams : IntentParams :=
  { date := none, workOrderId := none, itemNumber := none,
    comment := some "new note", issue := none }

/-- The rows `insertInstanceItems` creates: one pending item per template
item, with consecutive auto-increment ids from `startId`. -/
def newInstanceItems (startId instId : Nat) : List TemplateItemRow → List InstanceItemRow
  | [] => []
  | t :: ts =>
    { id := startId, checklist_instance_id := instId, template_item_id := t.id,
      status := "pending", comments := none, completed_at := none } ::
      newInstanceItems (startId + 1) instId ts

/-! Order-theoretic facts about the embedded varchar collation. -/

theorem strLtList_asymm :
    ∀ a b : List Char, strLtList a b = true → strLtList b a = false := by
  intro a
  induction a with
  | nil =>
    intro b h
    cases b with
    | nil => simp [strLtList] at h
    | cons y ys => simp [strLtList]
  | cons x xs ih =>
    intro b h
    cases b with
    | nil => simp [strLtList] at h
    | cons y ys =>
      simp only [strLtList] at h ⊢
      by_cases h1 : x.toNat < y.toNat
      · have h2 : ¬ y.toNat < x.toNat := by omega
        simp [h1, h2]
      · by_cases h2 : y.toNat < x.toNat
        · simp [h1, h2] at h
        · rw [if_neg h1, if_neg h2] at h
          rw [if_neg h2, if_neg h1]
          exact ih ys h

theorem strLtList_lt_of_lt :
    ∀ a b c : List Char, strLtList a c = true →
      strLtList a b = true ∨ strLtList b c = true := by
  intro a
  induction a with
  | nil =>
    intro b c h
    cases c with
    | nil => simp [strLtList] at h
    | cons z zs =>
      cases b with
      | nil => right; simp [strLtList]
      | cons y ys => left; simp [strLtList]
  | cons x xs ih =>
    intro b c h
    cases c with
    | nil => simp [strLtList] at h
    | cons z zs =>
      cases b with
      | nil => right; simp [strLtList]
      | cons y ys =>
        simp only [strLtList] at h ⊢
        by_cases hxy : x.toNat < y.toNat
        · left; simp [hxy]
        · by_cases hyx : y.toNat < x.toNat
          · right
            by_cases hxz : x.toNat < z.toNat
            · have : y.toNat < z.toNat := by omega
              simp [this]
            · by_cases hzx : z.toNat < x.toNat
              · simp [hxz, hzx] at h
              · have : y.toNat < z.toNat := by omega
                simp [this]
          · by_cases hxz : x.toNat < z.toNat
            · right
              have : ¬ z.toNat < y.toNat := by omega
              by_cases hyz : y.toNat < z.toNat
              · simp [hyz]
              · omega
            · by_cases hzx : z.toNat < x.toNat
              · simp [hxz, hzx] at h
              · simp only [hxz, hzx, if_neg, if_false] at h
                rcases ih ys zs h with h1 | h1
                · left
                  simp only [if_neg hxy, if_neg hyx]
                  exact h1
                · right
                  have hyz : ¬ y.toNat < z.toNat := by omega
                  have hzy : ¬ z.toNat < y.toNat := by omega
                  simp only [if_neg hyz, if_neg hzy]
                  exact h1

theorem strLe_total (a b : String) : strLe a b = true ∨ strLe b a = true := by
  by_cases h : strLtList b.data a.data = true
  · right
    have := strLtList_asymm _ _ h
    simp [strLe, this]
  · left
    simp [strLe] at h ⊢
    exact h

theorem strLe_trans (a b c : String) (h1 : strLe a b = true)
    (h2 : strLe b c = true) : strLe a c = true := by
  simp only [strLe, Bool.not_eq_true', Bool.not_eq_true] at h1 h2 ⊢
  by_cases h : strLtList c.data a.data = true
  · rcases strLtList_lt_of_lt c.data b.data a.data h with hh | hh
    · rw [hh] at h2; cases h2
    · rw [hh] at h1; cases h1
  · simpa using h

theorem woLe_total (a b : WorkOrderView) : (woLe a b || woLe b a) = true := by
  simp only [woLe, Bool.or_eq_true, Bool.and_eq_true, beq_iff_eq, decide_eq_true_eq]
  rcases Nat.lt_trichotomy (statusRank a.status) (statusRank b.status) with h | h | h
  · left; left; simpa using h
  · rcases strLe_total a.scheduled_time_window b.scheduled_time_window with hs | hs
    · left; right; exact ⟨by simpa using h, hs⟩
    · right; right; exact ⟨by simpa using h.symm, hs⟩
  · right; left; simpa using h

theorem woLe_trans (a b c : WorkOrderView) (h1 : woLe a b = true)
    (h2 : woLe b c = true) : woLe a c = true := by
  simp only [woLe, Bool.or_eq_true, Bool.and_eq_true, beq_iff_eq,
    decide_eq_true_eq] at h1 h2 ⊢
  rcases h1 with h1 | ⟨h1e, h1s⟩
  · rcases h2 with h2 | ⟨h2e, h2s⟩
    · left; omega
    · left; omega
  · rcases h2 with h2 | ⟨h2e, h2s⟩
    · left; omega
    · right
      exact ⟨by omega, strLe_trans _ _ _ h1s h2s⟩

theorem mem_insertSorted {α : Type} (le : α → α → Bool) (x a : α) :
    ∀ l : List α, a ∈ insertSorted le x l ↔ a = x ∨ a ∈ l := by
  intro l
  induction l with
  | nil => simp [insertSorted]
  | cons y ys ih =>
    simp only [insertSorted]
    split
    · simp [List.mem_cons]
    · simp only [List.mem_cons, ih]
      tauto

theorem insertSorted_pairwise {α : Type} (le : α → α → Bool)
    (htrans : ∀ a b c, le a b = true → le b c = true → le a c = true)
    (htot : ∀ a b, (le a b || le b a) = true) (x : α) :
    ∀ l : List α, l.Pairwise (fun a b => le a b = true) →
      (insertSorted le x l).Pairwise (fun a b => le a b = true) := by
  intro l
  induction l with
  | nil =>
    intro _
    simp [insertSorted]
  | cons y ys ih =>
    intro hl
    rcases List.pairwise_cons.mp hl with ⟨hy, hys⟩
    simp only [insertSorted]
    split
    · rename_i hxy
      refine List.Pairwise.cons ?_ hl
      intro b hb
      rcases List.mem_cons.mp hb with rfl | hb
      · exact hxy
      · exact htrans x y b hxy (hy b hb)
    · rename_i hxy
      have hyx : le y x = true := by
        rcases Bool.or_eq_true_iff.mp (htot x y) with h | h
        · exact absurd h hxy
        · exact h
      refine List.Pairwise.cons ?_ (ih hys)
      intro b hb
      rcases (mem_insertSorted le x b ys).mp hb with rfl | hb
      · exact hyx
      · exact hy b hb

theorem sortBy_pairwise {α : Type} (le : α → α → Bool)
    (htrans : ∀ a b c, le a b = true → le b c = true → le a c = true)
    (htot : ∀ a b, (le a b || le b a) = true) :
    ∀ l : List α, (sortBy le l).Pairwise (fun a b => le a b = true) := by
  intro l
  induction l with
  | nil => simp [sortBy]
  | cons x xs ih => exact insertSorted_pairwise le htrans htot x _ ih

theorem mem_sortBy {α : Type} (le : α → α → Bool) (a : α) :
    ∀ l : List α, a ∈ sortBy le l ↔ a ∈ l := by
  intro l
  induction l with
  | nil => simp [sortBy]
  | cons x xs ih =>
    simp only [sortBy, mem_insertSorted, List.mem_cons, ih]

/-- C10 — the `view_jobs` listing of `getInspectorWorkOrders` is ordered by
status rank (in_progress, then scheduled, then completed, then anything else)
and, within equal ranks, by scheduled time window ascending; and every row it
returns is the join of a work order of that inspector on that date, and every
such joinable work order appears. -/
theorem C10_view_jobs_ordering (db : DB) (inspectorId : Nat) (date : String) :
    (getInspectorWorkOrders db inspectorId date).Pairwise (fun a b =>
      statusRank a.status < statusRank b.status ∨
        (statusRank a.status = statusRank b.status ∧
          strLe a.scheduled_time_window b.scheduled_time_window = true)) ∧
    (∀ v ∈ getInspectorWorkOrders db inspectorId date,
      ∃ wo ∈ db.work_orders, wo.inspector_id = inspectorId ∧
        wo.scheduled_date = date ∧ joinWorkOrderRow db wo = some v) ∧
    (∀ wo ∈ db.work_orders, wo.inspector_id = inspectorId →
      wo.scheduled_date = date → ∀ v, joinWorkOrderRow db wo = some v →
        v ∈ getInspectorWorkOrders db inspectorId date) := by
  refine ⟨?_, ?_, ?_⟩
  · have hs := sortBy_pairwise woLe woLe_trans woLe_total
      (db.work_orders.filterMap (fun wo =>
        if wo.inspector_id == inspectorId && wo.scheduled_date == date then
          joinWorkOrderRow db wo
        else none))
    refine List.Pairwise.imp ?_ hs
    intro a b hab
    simp only [woLe, Bool.or_eq_true, Bool.and_eq_true, beq_iff_eq,
      decide_eq_true_eq] at hab
    rcases hab with h | ⟨he, hsle⟩
    · left; simpa using h
    · right; exact ⟨he, hsle⟩
  · intro v hv
    rw [getInspectorWorkOrders, mem_sortBy, List.mem_filterMap] at hv
    rcases hv with ⟨wo, hwo, hj⟩
    by_cases hc : (wo.inspector_id == inspectorId && wo.scheduled_date == date) = true
    · rw [if_pos hc] at hj
      simp only [Bool.and_eq_true, beq_iff_eq] at hc
      exact ⟨wo, hwo, hc.1, hc.2, hj⟩
    · rw [if_neg hc] at hj
      cases hj
  · intro wo hwo hi hd v hj
    rw [getInspectorWorkOrders, mem_sortBy, List.mem_filterMap]
    refine ⟨wo, hwo, ?_⟩
    have hc : (wo.inspector_id == inspectorId && wo.scheduled_date == date) = true := by
      simp [hi, hd]
    rw [if_pos hc]
    exact hj

/-! Effect of `startInspection` on the `checklist_instances` table. -/

theorem find?_map_of_pres {α : Type} (f : α → α) (p : α → Bool) (l : List α)
    (hpf : ∀ x, p (f x) = p x) :
    (l.map f).find? p = Option.map f (l.find? p) := by
  rw [List.find?_map]
  have hfe : p ∘ f = p := funext hpf
  rw [hfe]

/-- The row updater of the resume branch of `startInspection` keeps
`work_order_id`. -/
theorem resumeUpd_pres_wo (instId : Nat) (now : Nat) (wo : Nat) (x : InstanceRow) :
    ((if x.id == instId then
        { x with started_at := some now, status := "in_progress" }
      else x).work_order_id == wo) = (x.work_order_id == wo) := by
  by_cases h : x.id == instId
  · rw [if_pos h]
  · rw [if_neg h]

theorem startInspection_found (db : DB) (wo now : Nat) (inst : InstanceRow)
    (h : db.checklist_instances.find? (fun r => r.work_order_id == wo) = some inst) :
    ((startInspection db wo now).1).checklist_instances =
      db.checklist_instances.map (fun r =>
        if r.id == inst.id then
          { r with started_at := some now, status := "in_progress" }
        else r) := by
  unfold startInspection
  simp only
  rw [show ({ db with work_orders := db.work_orders.map (fun w =>
    if w.id == wo then { w with status := "in_progress" } else w) } : DB).checklist_instances
    = db.checklist_instances from rfl, h]
  simp only
  unfold getWorkOrderChecklist
  simp only
  rw [find?_map_of_pres _ _ _ (resumeUpd_pres_wo inst.id now wo), h]
  rfl

theorem startInspection_none (db : DB) (wo now : Nat)
    (h : db.checklist_instances.find? (fun r => r.work_order_id == wo) = none) :
    ((startInspection db wo now).1).checklist_instances =
      db.checklist_instances ++
        [{ id := db.nextInstanceId, work_order_id := wo,
           status := "in_progress", started_at := some now, completed_at := none }] := by
  unfold startInspection
  simp only
  rw [show ({ db with work_orders := db.work_orders.map (fun w =>
    if w.id == wo then { w with status := "in_progress" } else w) } : DB).checklist_instances
    = db.checklist_instances from rfl, h]
  simp only
  unfold getWorkOrderChecklist
  simp only [List.find?_append, h, Option.none_or, List.find?_cons, beq_self_eq_true]

/-- After any `startInspection`, an instance for the work order exists. -/
theorem startInspection_ensures_instance (db : DB) (wo now : Nat) :
    (((startInspection db wo now).1).checklist_instances.find?
      (fun r => r.work_order_id == wo)).isSome = true := by
  cases h : db.checklist_instances.find? (fun r => r.work_order_id == wo) with
  | some inst =>
    rw [startInspection_found db wo now inst h,
      find?_map_of_pres _ _ _ (resumeUpd_pres_wo inst.id now wo), h]
    rfl
  | none =>
    rw [startInspection_none db wo now h]
    simp [List.find?_append, h, List.find?_cons]

/-- C9 — a second `start_inspection` on the same work order never creates a
second ChecklistInstance: the instances table keeps exactly the same row ids
(the first call guarantees an instance exists, and the second call finds and
updates it in place). -/
theorem C9_start_inspection_resume (db : DB) (wo n1 n2 : Nat) :
    ((startInspection ((startInspection db wo n1).1) wo n2).1).checklist_instances.map
        (fun r => r.id) =
      (((startInspection db wo n1).1).checklist_instances.map (fun r => r.id)) ∧
    (((startInspection db wo n1).1).checklist_instances.find?
      (fun r => r.work_order_id == wo)).isSome = true := by
  refine ⟨?_, startInspection_ensures_instance db wo n1⟩
  obtain ⟨instA, hA⟩ := Option.isSome_iff_exists.mp
    (startInspection_ensures_instance db wo n1)
  rw [startInspection_found _ wo n2 instA hA, List.map_map]
  refine List.map_congr_left ?_
  intro r _
  by_cases h : r.id == instA.id
  · simp only [Function.comp, if_pos h]
  · simp only [Function.comp, if_neg h]

/-! Characterization and frame lemmas of the db layer. -/

theorem insertInstanceItems_eq (ts : List TemplateItemRow) :
    ∀ (db : DB) (i : Nat), insertInstanceItems db i ts =
      { db with
        checklist_instance_items :=
          db.checklist_instance_items ++ newInstanceItems db.nextItemId i ts,
        nextItemId := db.nextItemId + ts.length } := by
  induction ts with
  | nil =>
    intro db i
    cases db
    simp [insertInstanceItems, newInstanceItems]
  | cons t ts ih =>
    intro db i
    have step : insertInstanceItems db i (t :: ts) =
        insertInstanceItems
          { db with
            checklist_instance_items := db.checklist_instance_items ++
              [{ id := db.nextItemId, checklist_instance_id := i,
                 template_item_id := t.id, status := "pending",
                 comments := none, completed_at := none }],
            nextItemId := db.nextItemId + 1 } i ts := rfl
    rw [step, ih]
    cases db
    simp [newInstanceItems, List.append_assoc]
    omega

theorem getWorkOrderChecklist_found (db : DB) (wo : Nat) (inst : InstanceRow)
    (h : db.checklist_instances.find? (fun r => r.work_order_id == wo) = some inst) :
    getWorkOrderChecklist db wo =
      (db, Except.ok { inst := inst, items := checklistItemsView db inst.id }) := by
  unfold getWorkOrderChecklist
  rw [h]

theorem getWorkOrderChecklist_messages (db : DB) (wo : Nat) :
    ((getWorkOrderChecklist db wo).1).messages = db.messages := by
  unfold getWorkOrderChecklist
  split
  · rfl
  · dsimp only
    split
    · rfl
    · rw [insertInstanceItems_eq]

theorem getWorkOrderChecklist_conversations (db : DB) (wo : Nat) :
    ((getWorkOrderChecklist db wo).1).conversations = db.conversations := by
  unfold getWorkOrderChecklist
  split
  · rfl
  · dsimp only
    split
    · rfl
    · rw [insertInstanceItems_eq]

theorem getWorkOrderChecklist_work_orders (db : DB) (wo : Nat) :
    ((getWorkOrderChecklist db wo).1).work_orders = db.work_orders := by
  unfold getWorkOrderChecklist
  split
  · rfl
  · dsimp only
    split
    · rfl
    · rw [insertInstanceItems_eq]

theorem getWorkOrderChecklist_reports (db : DB) (wo : Nat) :
    ((getWorkOrderChecklist db wo).1).reports = db.reports := by
  unfold getWorkOrderChecklist
  split
  · rfl
  · dsimp only
    split
    · rfl
    · rw [insertInstanceItems_eq]

theorem getWorkOrderChecklist_media (db : DB) (wo : Nat) :
    ((getWorkOrderChecklist db wo).1).media = db.media := by
  unfold getWorkOrderChecklist
  split
  · rfl
  · dsimp only
    split
    · rfl
    · rw [insertInstanceItems_eq]

theorem getWorkOrderDetails_messages (db : DB) (wo : Nat) :
    ((getWorkOrderDetails db wo).1).messages = db.messages := by
  unfold getWorkOrderDetails
  split
  · rfl
  · split
    · rfl
    · split
      · rename_i heq
        have := getWorkOrderChecklist_messages db wo
        rw [heq] at this
        exact this
      · rename_i heq
        have := getWorkOrderChecklist_messages db wo
        rw [heq] at this
        exact this

theorem getWorkOrderDetails_conversations (db : DB) (wo : Nat) :
    ((getWorkOrderDetails db wo).1).conversations = db.conversations := by
  unfold getWorkOrderDetails
  split
  · rfl
  · split
    · rfl
    · split
      · rename_i heq
        have := getWorkOrderChecklist_conversations db wo
        rw [heq] at this
        exact this
      · rename_i heq
        have := getWorkOrderChecklist_conversations db wo
        rw [heq] at this
        exact this

theorem startInspection_messages (db : DB) (wo now : Nat) :
    ((startInspection db wo now).1).messages = db.messages := by
  unfold startInspection
  dsimp only
  split <;> exact getWorkOrderChecklist_messages _ _

theorem startInspection_conversations (db : DB) (wo now : Nat) :
    ((startInspection db wo now).1).conversations = db.conversations := by
  unfold startInspection
  dsimp only
  split <;> exact getWorkOrderChecklist_conversations _ _

theorem completeInspection_messages (db : DB) (wo now : Nat) :
    ((completeInspection db wo now).1).messages = db.messages := by
  unfold completeInspection
  split
  · rename_i heq
    have := getWorkOrderChecklist_messages db wo
    rw [heq] at this
    exact this
  · rename_i db1 cl heq
    have h1 : db1.messages = db.messages := by
      have := getWorkOrderChecklist_messages db wo
      rw [heq] at this
      exact this
    dsimp only
    split
    · exact h1
    · split
      · exact h1
      · rw [getWorkOrderDetails_messages]
        exact h1

theorem completeInspection_conversations (db : DB) (wo now : Nat) :
    ((completeInspection db wo now).1).conversations = db.conversations := by
  unfold completeInspection
  split
  · rename_i heq
    have := getWorkOrderChecklist_conversations db wo
    rw [heq] at this
    exact this
  · rename_i db1 cl heq
    have h1 : db1.conversations = db.conversations := by
      have := getWorkOrderChecklist_conversations db wo
      rw [heq] at this
      exact this
    dsimp only
    split
    · exact h1
    · split
      · exact h1
      · rw [getWorkOrderDetails_conversations]
        exact h1

theorem generateAndStoreReport_messages (db : DB) (wo : Nat) (pdfBuf : String)
    (now : Nat) : ((generateAndStoreReport db wo pdfBuf now).1).messages = db.messages := by
  unfold generateAndStoreReport
  split
  · rename_i heq
    have := getWorkOrderDetails_messages db wo
    rw [heq] at this
    exact this
  · rename_i heq
    have := getWorkOrderDetails_messages db wo
    rw [heq] at this
    exact this
  · rename_i db1 details heq
    have h1 : db1.messages = db.messages := by
      have := getWorkOrderDetails_messages db wo
      rw [heq] at this
      exact this
    dsimp only
    split
    · exact h1
    · have h2 : ((storeReportPdf db1 wo pdfBuf now)).messages = db.messages := h1
      split
      · rename_i heq2
        have := getWorkOrderDetails_messages (storeReportPdf db1 wo pdfBuf now) wo
        rw [heq2] at this
        rw [this]
        exact h2
      · rename_i heq2
        have := getWorkOrderDetails_messages (storeReportPdf db1 wo pdfBuf now) wo
        rw [heq2] at this
        rw [this]
        exact h2
      · rename_i db3 d2 heq2
        have h3 : db3.messages = db.messages := by
          have := getWorkOrderDetails_messages (storeReportPdf db1 wo pdfBuf now) wo
          rw [heq2] at this
          rw [this]
          exact h2
        dsimp only
        split <;> exact h3

theorem generateAndStoreReport_conversations (db : DB) (wo : Nat) (pdfBuf : String)
    (now : Nat) :
    ((generateAndStoreReport db wo pdfBuf now).1).conversations = db.conversations := by
  unfold generateAndStoreReport
  split
  · rename_i heq
    have := getWorkOrderDetails_conversations db wo
    rw [heq] at this
    exact this
  · rename_i heq
    have := getWorkOrderDetails_conversations db wo
    rw [heq] at this
    exact this
  · rename_i db1 details heq
    have h1 : db1.conversations = db.conversations := by
      have := getWorkOrderDetails_conversations db wo
      rw [heq] at this
      exact this
    dsimp only
    split
    · exact h1
    · have h2 : ((storeReportPdf db1 wo pdfBuf now)).conversations = db.conversations := h1
      split
      · rename_i heq2
        have := getWorkOrderDetails_conversations (storeReportPdf db1 wo pdfBuf now) wo
        rw [heq2] at this
        rw [this]
        exact h2
      · rename_i heq2
        have := getWorkOrderDetails_conversations (storeReportPdf db1 wo pdfBuf now) wo
        rw [heq2] at this
        rw [this]
        exact h2
      · rename_i db3 d2 heq2
        have h3 : db3.conversations = db.conversations := by
          have := getWorkOrderDetails_conversations (storeReportPdf db1 wo pdfBuf now) wo
          rw [heq2] at this
          rw [this]
          exact h2
        dsimp only
        split <;> exact h3

/-! The handler cases never touch the `messages` table (only `storeMessage`
in the handler prologue appends to it). -/

theorem startInspectionCase_messages (db : DB) (insp : UserRow) (ctx : Ctx)
    (p : IntentParams) (now : Nat) :
    ((startInspectionCase db insp ctx p now).1).messages = db.messages := by
  unfold startInspectionCase
  split
  · rfl
  · split
    · rfl
    · split
      · rename_i db1 e heq
        have h := congrArg (fun r => r.1.messages) heq
        dsimp only at h
        rw [getWorkOrderDetails_messages] at h
        exact h.symm
      · rename_i db1 heq
        have h := congrArg (fun r => r.1.messages) heq
        dsimp only at h
        rw [getWorkOrderDetails_messages] at h
        exact h.symm
      · rename_i db1 details heq
        have h : db1.messages = db.messages := by
          have h := congrArg (fun r => r.1.messages) heq
          dsimp only at h
          rw [getWorkOrderDetails_messages] at h
          exact h.symm
        split
        · exact h
        · split
          · exact h
          · split
            · rename_i db2 e heq2
              have h2 := congrArg (fun r => r.1.messages) heq2
              dsimp only at h2
              rw [startInspection_messages] at h2
              exact h2.symm.trans h
            · rename_i db2 cl heq2
              have h2 := congrArg (fun r => r.1.messages) heq2
              dsimp only at h2
              rw [startInspection_messages] at h2
              exact h2.symm.trans h

theorem updateItemCase_messages (db : DB) (ctx : Ctx) (p : IntentParams) :
    ((updateItemCase db ctx p).1).messages = db.messages := by
  unfold updateItemCase
  split
  · rfl
  · split
    · rfl
    · rename_i n
      split
      · rfl
      · split
        · rename_i db1 e heq
          have h := getWorkOrderChecklist_messages db (ctxNat ctx "currentWorkOrder")
          rw [heq] at h
          exact h
        · rename_i db1 cl heq
          have h : db1.messages = db.messages := by
            have h := getWorkOrderChecklist_messages db (ctxNat ctx "currentWorkOrder")
            rw [heq] at h
            exact h
          split
          · exact h
          · split
            · exact h
            · exact h

theorem addCommentCase_messages (db : DB) (ctx : Ctx) (p : IntentParams)
    (now : Nat) : ((addCommentCase db ctx p now).1).messages = db.messages := by
  unfold addCommentCase
  split
  · rfl
  · split <;> (dsimp only; first
      | rfl
      | (split <;> rfl))

theorem completeItemCase_messages (db : DB) (ctx : Ctx) (now : Nat) :
    ((completeItemCase db ctx now).1).messages = db.messages := by
  unfold completeItemCase
  split
  · rfl
  · dsimp only
    split
    · rename_i db2 e heq
      have h := getWorkOrderChecklist_messages
        (updateChecklistItem db (ctxNat ctx "currentChecklistItem") "completed" none now)
        (ctxNat ctx "currentWorkOrder")
      rw [heq] at h
      exact h
    · rename_i db2 cl heq
      have h : db2.messages = db.messages := by
        have h := getWorkOrderChecklist_messages
          (updateChecklistItem db (ctxNat ctx "currentChecklistItem") "completed" none now)
          (ctxNat ctx "currentWorkOrder")
        rw [heq] at h
        exact h
      split
      · exact h
      · exact h

theorem issueFoundCase_messages (db : DB) (ctx : Ctx) (p : IntentParams)
    (now : Nat) : ((issueFoundCase db ctx p now).1).messages = db.messages := by
  unfold issueFoundCase
  split
  · rfl
  · rfl

theorem completeInspectionCase_messages (db : DB) (ctx : Ctx) (pdfBuf : String)
    (now : Nat) :
    ((completeInspectionCase db ctx pdfBuf now).1).messages = db.messages := by
  unfold completeInspectionCase
  split
  · rfl
  · split
    · rename_i db1 e heq
      have h := getWorkOrderChecklist_messages db (ctxNat ctx "currentWorkOrder")
      rw [heq] at h
      exact h
    · rename_i db1 cl heq
      have h : db1.messages = db.messages := by
        have h := getWorkOrderChecklist_messages db (ctxNat ctx "currentWorkOrder")
        rw [heq] at h
        exact h
      dsimp only
      split
      · exact h
      · split
        · rename_i db2 e heq2
          have h2 := completeInspection_messages db1 (ctxNat ctx "currentWorkOrder") now
          rw [heq2] at h2
          rw [h2]
          exact h
        · rename_i db2 r heq2
          have h2 : db2.messages = db.messages := by
            have h2 := completeInspection_messages db1 (ctxNat ctx "currentWorkOrder") now
            rw [heq2] at h2
            rw [h2]
            exact h
          rw [generateAndStoreReport_messages]
          exact h2

theorem dispatchIntent_messages (db2 : DB) (inspector : UserRow) (uc : Ctx)
    (intentData : IntentData) (genReply today pdfBuf : String) (now : Nat) :
    ((dispatchIntent db2 inspector uc intentData genReply today pdfBuf now).1).messages =
      db2.messages := by
  unfold dispatchIntent
  split
  · rfl
  · split
    · rfl
    · split
      · exact startInspectionCase_messages _ _ _ _ _
      · split
        · exact updateItemCase_messages _ _ _
        · split
          · exact addCommentCase_messages _ _ _ _
          · split
            · exact completeItemCase_messages _ _ _
            · split
              · exact issueFoundCase_messages _ _ _ _
              · split
                · exact completeInspectionCase_messages _ _ _ _
                · split
                  · rfl
                  · split
                    · rfl
                    · rfl

/-- Every text delivery processed for a registered inspector appends exactly
one `messages` row, whether or not a row with the same provider message id is
already stored: the handler performs no deduplication. -/
theorem processTextMessage_appends (db : DB) (msg : InMessage)
    (intentData : IntentData) (genReply today pdfBuf : String) (now : Nat)
    (insp : UserRow)
    (hinsp : findInspectorByWhatsAppId db msg.sender = some insp) :
    ((processTextMessage db msg intentData genReply today pdfBuf now).1).messages.length =
      db.messages.length + 1 := by
  unfold processTextMessage
  rw [hinsp]
  dsimp only
  unfold getOrCreateConversation
  split
  · rename_i conv heq
    simp only [updateConversationContext]
    rw [dispatchIntent_messages]
    simp [storeMessage]
  · rename_i heq
    simp only [updateConversationContext]
    rw [dispatchIntent_messages]
    simp [storeMessage]

/-! Claim C2: duplicate-delivery idempotence. -/

/-- C2 counterexample — processing the same provider message id twice does
not yield the state of processing it once: the claimed idempotence fails
(a second message row is appended and the intent re-runs). -/
theorem C2_duplicate_delivery_counterexample :
    (processTextMessage
        ((processTextMessage dupDB helloMsg greetingIntent "fallback" "2025-01-02" "pdfbytes" 1).1)
        helloMsg greetingIntent "fallback" "2025-01-02" "pdfbytes" 1).1 ≠
      (processTextMessage dupDB helloMsg greetingIntent "fallback" "2025-01-02" "pdfbytes" 1).1 := by
  have h1 : (processTextMessage
      ((processTextMessage dupDB helloMsg greetingIntent "fallback" "2025-01-02" "pdfbytes" 1).1)
      helloMsg greetingIntent "fallback" "2025-01-02" "pdfbytes" 1).1.messages.length = 2 := by
    rfl
  have h2 : (processTextMessage dupDB helloMsg greetingIntent
      "fallback" "2025-01-02" "pdfbytes" 1).1.messages.length = 1 := by
    rfl
  intro h
  rw [h, h2] at h1
  exact absurd h1 (by decide)

/-- C2 (amended) — the core performs no deduplication on the provider message
id: every text delivery processed for a registered inspector appends a fresh
`messages` row (whether or not one with the same `whatsapp_message_id` is
already stored) and re-runs the intent transition, so processing a duplicate
N times is not idempotent. -/
theorem C2_no_dedup (db : DB) (msg : InMessage) (intentData : IntentData)
    (genReply today pdfBuf : String) (now : Nat) (insp : UserRow)
    (hinsp : findInspectorByWhatsAppId db msg.sender = some insp) :
    ((processTextMessage db msg intentData genReply today pdfBuf now).1).messages.length =
      db.messages.length + 1 :=
  processTextMessage_appends db msg intentData genReply today pdfBuf now insp hinsp

/-- C2 witness — the no-dedup theorem applied to the duplicate-delivery
fixture. -/
theorem C2_no_dedup_witness :
    findInspectorByWhatsAppId dupDB helloMsg.sender = some joeInspector ∧
    ((processTextMessage dupDB helloMsg greetingIntent "fallback" "2025-01-02"
        "pdfbytes" 1).1).messages.length = dupDB.messages.length + 1 :=
  ⟨rfl, C2_no_dedup dupDB helloMsg greetingIntent "fallback" "2025-01-02"
    "pdfbytes" 1 joeInspector rfl⟩

/-! Claim C3: idempotence of completion. -/

/-- C3 counterexample — calling `completeInspection` on the already-completed
instance of `completedDB` is not a no-op returning the existing completion
state: it re-updates the instance timestamp and then throws on the UNIQUE
report insert. -/
theorem C3_second_completion_errors :
    (completeInspection completedDB 1 5).2 =
      Except.error "ER_DUP_ENTRY: duplicate entry for key reports.work_order_id" ∧
    ((completeInspection completedDB 1 5).1).checklist_instances =
      [{ id := 1, work_order_id := 1, status := "completed",
         started_at := some 0, completed_at := some 5 }] ∧
    completedDB.checklist_instances =
      [{ id := 1, work_order_id := 1, status := "completed",
         started_at := some 0, completed_at := some 0 }] := by
  exact ⟨rfl, rfl, rfl⟩

/-- C3 (amended) — re-running `completeInspection` on a work order whose
report row already exists re-updates the instance and work order and then
fails on the UNIQUE(work_order_id) report insert; the `reports` table is
unchanged, so at most one report row (one generate-report trigger) ever
exists per work order. -/
theorem C3_report_inserted_once (db : DB) (wo now : Nat) (inst : InstanceRow)
    (hinst : db.checklist_instances.find? (fun r => r.work_order_id == wo) = some inst)
    (hpend : (checklistItemsView db inst.id).filter (fun it => it.status == "pending") = [])
    (hrep : db.reports.any (fun r => r.work_order_id == wo) = true) :
    (completeInspection db wo now).2 =
      Except.error "ER_DUP_ENTRY: duplicate entry for key reports.work_order_id" ∧
    ((completeInspection db wo now).1).reports = db.reports := by
  unfold completeInspection
  rw [getWorkOrderChecklist_found db wo inst hinst]
  dsimp only
  rw [hpend]
  simp only [List.length_nil, gt_iff_lt, Nat.lt_irrefl, if_false]
  rw [hrep]
  simp only [if_true]
  constructor <;> trivial

/-- C3 witness — the amended theorem applied to the completed fixture. -/
theorem C3_report_inserted_once_witness :
    completedDB.checklist_instances.find? (fun r => r.work_order_id == 1) =
      some { id := 1, work_order_id := 1, status := "completed",
             started_at := some 0, completed_at := some 0 } ∧
    ((completeInspection completedDB 1 5).1).reports = completedDB.reports :=
  ⟨rfl, (C3_report_inserted_once completedDB 1 5
    { id := 1, work_order_id := 1, status := "completed",
      started_at := some 0, completed_at := some 0 } rfl rfl rfl).2⟩

/-! Claim C4: instance creation only by start_inspection. -/

/-- C4 counterexample — reading the checklist of work order 1 (the query the
`update_item`, `complete_item`, `complete_inspection` and work-order-detail
paths all run) CREATES the ChecklistInstance, with status not_started, even
though `start_inspection` was never executed. -/
theorem C4_listing_creates_instance :
    freshWorkOrderDB.checklist_instances = [] ∧
    ((getWorkOrderChecklist freshWorkOrderDB 1).1).checklist_instances =
      [{ id := 1, work_order_id := 1, status := "not_started",
         started_at := none, completed_at := none }] := by
  exact ⟨rfl, rfl⟩

/-- C4 (amended) — a ChecklistInstance is created lazily by whichever
operation first reads the work order checklist: when no instance exists,
`getWorkOrderChecklist` inserts one (status not_started); when one exists,
the read leaves the store untouched. -/
theorem C4_lazy_instance_creation (db : DB) (wo : Nat) :
    (db.checklist_instances.find? (fun r => r.work_order_id == wo) = none →
      ((getWorkOrderChecklist db wo).1).checklist_instances =
        db.checklist_instances ++
          [{ id := db.nextInstanceId, work_order_id := wo,
             status := "not_started", started_at := none, completed_at := none }]) ∧
    (∀ inst, db.checklist_instances.find? (fun r => r.work_order_id == wo) = some inst →
      (getWorkOrderChecklist db wo).1 = db) := by
  constructor
  · intro h
    unfold getWorkOrderChecklist
    rw [h]
    dsimp only
    split
    · rfl
    · rw [insertInstanceItems_eq]
  · intro inst h
    rw [getWorkOrderChecklist_found db wo inst h]

/-- C4 witness — lazy creation applied to the fresh fixture. -/
theorem C4_lazy_instance_creation_witness :
    freshWorkOrderDB.checklist_instances.find? (fun r => r.work_order_id == 1) = none ∧
    ((getWorkOrderChecklist freshWorkOrderDB 1).1).checklist_instances =
      freshWorkOrderDB.checklist_instances ++
        [{ id := freshWorkOrderDB.nextInstanceId, work_order_id := 1,
           status := "not_started", started_at := none, completed_at := none }] :=
  ⟨rfl, (C4_lazy_instance_creation freshWorkOrderDB 1).1 rfl⟩

/-! Claim C5: media while no checklist item is selected. -/

/-- C5 counterexample — an image received while `currentChecklistItem` is
unset leaves the `media` table EMPTY (the media is neither downloaded nor
stored, contrary to the claimed store-but-unbound behaviour); only the reply
asking to select an item first matches the claim. -/
theorem C5_media_not_stored :
    noItemDB.media = [] ∧
    ((processMediaMessage noItemDB frontDoorMsg (Except.ok "IMAGEBYTES") 9).1).media = [] ∧
    (processMediaMessage noItemDB frontDoorMsg (Except.ok "IMAGEBYTES") 9).2.text =
      "Please select a checklist item first before sending media. Use \x27Update item #[number]\x27 to select an item." := by
  exact ⟨rfl, rfl, rfl⟩

/-- C5 (amended) — for every media message received while the context lacks a
current work order or current checklist item, the handler stores only the
message log row (with the caption) and replies asking to select an item
first; the media itself is not stored at all. -/
theorem C5_media_unstored_without_selection (db : DB) (msg : InMessage)
    (download : Except String String) (now : Nat) (insp : UserRow)
    (conv : ConversationRow)
    (hinsp : findInspectorByWhatsAppId db msg.sender = some insp)
    (hconv : db.conversations.find? (fun c => c.user_id == insp.id && c.active) = some conv)
    (hsel : (!(truthy (ctxGet conv.context "currentWorkOrder")) ||
      !(truthy (ctxGet conv.context "currentChecklistItem"))) = true) :
    ((processMediaMessage db msg download now).1).media = db.media ∧
    ((processMediaMessage db msg download now).1).messages.length = db.messages.length + 1 ∧
    (processMediaMessage db msg download now).2.text =
      "Please select a checklist item first before sending media. Use \x27Update item #[number]\x27 to select an item." := by
  unfold processMediaMessage
  rw [hinsp]
  dsimp only
  unfold getOrCreateConversation
  rw [hconv]
  dsimp only
  rw [hsel]
  simp [storeMessage]

/-- C5 witness — the amended theorem on the no-item fixture. -/
theorem C5_media_unstored_witness :
    findInspectorByWhatsAppId noItemDB frontDoorMsg.sender = some joeInspector ∧
    ((processMediaMessage noItemDB frontDoorMsg (Except.ok "IMAGEBYTES") 9).1).media =
      noItemDB.media :=
  ⟨rfl, (C5_media_unstored_without_selection noItemDB frontDoorMsg
    (Except.ok "IMAGEBYTES") 9 joeInspector
    { id := 1, user_id := 1, context := [("currentWorkOrder", CtxVal.num 1)],
      active := true, last_message_at := 0 } rfl rfl rfl).1⟩

/-! Claim C6: webhook acknowledgement policy. -/

/-- C6 counterexample — a webhook delivery whose processing fails internally
(here: reply delivery throws) is answered with HTTP 500, not with the claimed
unconditional success acknowledgement. -/
theorem C6_internal_failure_returns_500 :
    (main dupDB (some helloMsg) greetingIntent "fallback" "2025-01-02" "pdfbytes"
        (Except.ok "buf") (Except.error "ECONNRESET") 1).2 =
      { statusCode := 500, body := "Internal server error" } ∧
    ({ statusCode := 500, body := "Internal server error" } : WebhookResponse) ≠
      { statusCode := 200, body := "success" } := by
  exact ⟨rfl, by decide⟩

/-- C6 (amended) — all errors are caught at the top-level boundary of
handler.main, but an internal failure is answered with a 500
"Internal server error" response; 200 is returned only on success or for
non-message events. -/
theorem C6_top_level_catch (db : DB) (parsed : Option InMessage)
    (intentData : IntentData) (genReply today pdfBuf : String)
    (download : Except String String) (send : Except String Unit) (now : Nat) :
    (∀ m, parsed = some m → ∀ e, send = Except.error e →
      (main db parsed intentData genReply today pdfBuf download send now).2 =
        { statusCode := 500, body := "Internal server error" }) ∧
    (∀ m, parsed = some m → send = Except.ok () →
      (main db parsed intentData genReply today pdfBuf download send now).2 =
        { statusCode := 200, body := "success" }) ∧
    (parsed = none →
      (main db parsed intentData genReply today pdfBuf download send now).2 =
        { statusCode := 200, body := "Not a valid or incoming message event" }) := by
  refine ⟨?_, ?_, ?_⟩
  · intro m hm e hs
    unfold main
    rw [hm, hs]
  · intro m hm hs
    unfold main
    rw [hm, hs]
  · intro hp
    unfold main
    rw [hp]

/-- C6 witness — the amended theorem at a concrete failed delivery. -/
theorem C6_top_level_catch_witness :
    (main dupDB (some helloMsg) greetingIntent "fallback" "2025-01-02" "pdfbytes"
        (Except.ok "buf") (Except.error "ECONNRESET") 1).2 =
      { statusCode := 500, body := "Internal server error" } :=
  (C6_top_level_catch dupDB (some helloMsg) greetingIntent "fallback" "2025-01-02"
    "pdfbytes" (Except.ok "buf") (Except.error "ECONNRESET") 1).1
    helloMsg rfl "ECONNRESET" rfl

/-! Claim C7: persisted context layout. -/

/-- C7 counterexample — after a `cancel` transition the persisted context of
the fixture conversation has the fields `freeform`, `currentWorkOrder`,
`currentChecklistItem`: not the claimed exact four-field layout
(`currentWorkOrderId`, `currentChecklistItemId`, `lastIntent`,
`lastMessageId`), and a free-form classifier-era field is round-tripped into
the store. -/
theorem C7_context_layout_counterexample :
    ((processTextMessage freeformDB helloMsg cancelIntent "fallback" "2025-01-02"
        "pdfbytes" 9).1).conversations.map (fun c => c.context.map Prod.fst) =
      [["freeform", "currentWorkOrder", "currentChecklistItem"]] ∧
    (["freeform", "currentWorkOrder", "currentChecklistItem"] ≠
      ["currentWorkOrderId", "currentChecklistItemId", "lastIntent", "lastMessageId"]) := by
  exact ⟨rfl, by decide⟩

/-- C7 (amended) — the persisted workflow context is the free-form object
loaded from the conversation, round-tripped in full: a `cancel` transition
writes back the loaded context with only `currentWorkOrder` and
`currentChecklistItem` set to null (there are no `currentWorkOrderId`,
`currentChecklistItemId`, `lastIntent` or `lastMessageId` fields, and any
pre-existing free-form fields are re-persisted verbatim). -/
theorem C7_context_roundtrip (db : DB) (msg : InMessage) (intentData : IntentData)
    (genReply today pdfBuf : String) (now : Nat) (insp : UserRow)
    (conv : ConversationRow)
    (hinsp : findInspectorByWhatsAppId db msg.sender = some insp)
    (hconv : db.conversations.find? (fun c => c.user_id == insp.id && c.active) = some conv)
    (hintent : intentData.intent = "cancel") :
    ((processTextMessage db msg intentData genReply today pdfBuf now).1).conversations =
      db.conversations.map (fun c =>
        if c.id == conv.id then
          { c with
            context := ctxSet (ctxSet conv.context "currentWorkOrder" CtxVal.null)
              "currentChecklistItem" CtxVal.null,
            last_message_at := now }
        else c) := by
  unfold processTextMessage
  rw [hinsp]
  dsimp only
  unfold getOrCreateConversation
  rw [hconv]
  dsimp only
  unfold dispatchIntent
  rw [hintent]
  simp only [show (("cancel" : String) == "greeting") = false from rfl,
    show (("cancel" : String) == "view_jobs") = false from rfl,
    show (("cancel" : String) == "start_inspection") = false from rfl,
    show (("cancel" : String) == "update_item") = false from rfl,
    show (("cancel" : String) == "add_comment") = false from rfl,
    show (("cancel" : String) == "complete_item") = false from rfl,
    show (("cancel" : String) == "issue_found") = false from rfl,
    show (("cancel" : String) == "complete_inspection") = false from rfl,
    show (("cancel" : String) == "cancel") = true from rfl,
    Bool.false_eq_true, if_false, if_true]
  rfl

/-- C7 witness — the round-trip theorem on the free-form fixture. -/
theorem C7_context_roundtrip_witness :
    ((processTextMessage freeformDB helloMsg cancelIntent "fallback" "2025-01-02"
        "pdfbytes" 9).1).conversations =
      freeformDB.conversations.map (fun c =>
        if c.id == 1 then
          { c with
            context := ctxSet (ctxSet
              [("freeform", CtxVal.str "junk"),
               ("currentWorkOrder", CtxVal.num 1),
               ("currentChecklistItem", CtxVal.num 2)]
              "currentWorkOrder" CtxVal.null) "currentChecklistItem" CtxVal.null,
            last_message_at := 9 }
        else c) :=
  C7_context_roundtrip freeformDB helloMsg cancelIntent "fallback" "2025-01-02"
    "pdfbytes" 9 joeInspector
    { id := 1, user_id := 1,
      context := [("freeform", CtxVal.str "junk"),
                  ("currentWorkOrder", CtxVal.num 1),
                  ("currentChecklistItem", CtxVal.num 2)],
      active := true, last_message_at := 0 } rfl rfl rfl

/-! Claim C8: comment preservation of add_comment / complete_item. -/

/-- C8 — evaluation of the code at the failing input: `updateChecklistItem`
with a comment REPLACES the accumulated comment text of the item instead of
appending to it, and the `complete_item` transition (which passes NULL
comments while its inline comment says "keep existing comments") ERASES the
comment; the handler paths exhibit both. -/
theorem C8_comment_clobbered :
    commentedItemDB.checklist_instance_items.map (fun it => it.comments) =
      [some "old note"] ∧
    (updateChecklistItem commentedItemDB 1 "pending" (some "new note") 7).checklist_instance_items.map
        (fun it => it.comments) = [some "new note"] ∧
    (updateChecklistItem commentedItemDB 1 "completed" none 7).checklist_instance_items.map
        (fun it => it.comments) = [none] ∧
    ((addCommentCase commentedItemDB itemSelectedCtx commentParams 7).1).checklist_instance_items.map
        (fun it => it.comments) = [some "new note"] ∧
    ((completeItemCase commentedItemDB itemSelectedCtx 7).1).checklist_instance_items.map
        (fun it => it.comments) = [none] := by
  exact ⟨rfl, rfl, rfl, rfl, rfl⟩

/-! Claim C1: the complete_inspection gate. -/

/-- The row updater of the completion branch keeps `work_order_id`. -/
theorem completeUpd_pres_wo (instId now wo : Nat) (x : InstanceRow) :
    ((if x.id == instId then
        { x with completed_at := some now, status := "completed" }
      else x).work_order_id == wo) = (x.work_order_id == wo) := by
  by_cases h : x.id == instId
  · rw [if_pos h]
  · rw [if_neg h]

/-- `storeReportPdf` keeps the multiset of report work-order ids. -/
theorem storeReportPdf_reports_ids (db : DB) (wo : Nat) (pdf : String) (now : Nat) :
    ((storeReportPdf db wo pdf now).reports).map (fun r => r.work_order_id) =
      db.reports.map (fun r => r.work_order_id) := by
  show (db.reports.map _).map _ = _
  rw [List.map_map]
  refine List.map_congr_left ?_
  intro r _
  by_cases h : r.work_order_id == wo
  · simp only [Function.comp, if_pos h]
  · simp only [Function.comp, if_neg h]

/-- When an instance exists for the work order, `getWorkOrderDetails` is a
pure read returning `Except.ok`. -/
theorem getWorkOrderDetails_found_pair (db : DB) (wo : Nat) (inst : InstanceRow)
    (hfound : db.checklist_instances.find? (fun r => r.work_order_id == wo) = some inst) :
    ∃ v, getWorkOrderDetails db wo = (db, Except.ok v) := by
  unfold getWorkOrderDetails
  split
  · exact ⟨none, rfl⟩
  · split
    · exact ⟨none, rfl⟩
    · rw [getWorkOrderChecklist_found db wo inst hfound]
      exact ⟨_, rfl⟩

/-- Report generation leaves the workflow state alone when the instance
exists: it only fills the report file and appends notifications. -/
theorem generateAndStoreReport_frame (db : DB) (wo : Nat) (pdfBuf : String)
    (now : Nat) (inst : InstanceRow)
    (hfound : db.checklist_instances.find? (fun r => r.work_order_id == wo) = some inst) :
    ((generateAndStoreReport db wo pdfBuf now).1).checklist_instances = db.checklist_instances ∧
    ((generateAndStoreReport db wo pdfBuf now).1).checklist_instance_items = db.checklist_instance_items ∧
    ((generateAndStoreReport db wo pdfBuf now).1).work_orders = db.work_orders ∧
    ((generateAndStoreReport db wo pdfBuf now).1).conversations = db.conversations ∧
    ((generateAndStoreReport db wo pdfBuf now).1).messages = db.messages ∧
    ((generateAndStoreReport db wo pdfBuf now).1).reports.map (fun r => r.work_order_id) =
      db.reports.map (fun r => r.work_order_id) := by
  obtain ⟨v, hpair⟩ := getWorkOrderDetails_found_pair db wo inst hfound
  unfold generateAndStoreReport
  rw [hpair]
  dsimp only
  cases v with
  | none => exact ⟨rfl, rfl, rfl, rfl, rfl, rfl⟩
  | some details =>
    split
    · rename_i heq
      simp at heq
    · rename_i heq
      simp at heq
    · rename_i db3 d2 heq
      rw [Prod.mk.injEq] at heq
      obtain ⟨hdb, hv⟩ := heq
      subst hdb
      have hd2 : details = d2 := by
        simpa using hv
      subst hd2
      split
      · exact ⟨rfl, rfl, rfl, rfl, rfl, rfl⟩
      · obtain ⟨v2, hpair2⟩ := getWorkOrderDetails_found_pair
          (storeReportPdf db wo pdfBuf now) wo inst hfound
        rw [hpair2]
        split
        · rename_i heq2
          simp at heq2
        · rename_i heq2
          rw [Prod.mk.injEq] at heq2
          obtain ⟨hdb2, _⟩ := heq2
          subst hdb2
          exact ⟨rfl, rfl, rfl, rfl, rfl, storeReportPdf_reports_ids db wo pdfBuf now⟩
        · rename_i db4 d3 heq2
          rw [Prod.mk.injEq] at heq2
          obtain ⟨hdb2, _⟩ := heq2
          subst hdb2
          split
          · exact ⟨rfl, rfl, rfl, rfl, rfl, storeReportPdf_reports_ids db wo pdfBuf now⟩
          · exact ⟨rfl, rfl, rfl, rfl, rfl, storeReportPdf_reports_ids db wo pdfBuf now⟩

/-- The success path of `completeInspection` under the gate hypotheses:
instance exists, its items are all non-pending, no report row yet. -/
theorem completeInspection_success (db : DB) (wo now : Nat) (inst : InstanceRow)
    (hinst : db.checklist_instances.find? (fun r => r.work_order_id == wo) = some inst)
    (hpend : (checklistItemsView db inst.id).filter (fun it => it.status == "pending") = [])
    (hnorep : db.reports.any (fun r => r.work_order_id == wo) = false) :
    ∃ v, completeInspection db wo now =
      ({ db with
         checklist_instances := db.checklist_instances.map (fun r =>
           if r.id == inst.id then
             { r with completed_at := some now, status := "completed" }
           else r),
         work_orders := db.work_orders.map (fun w =>
           if w.id == wo then { w with status := "completed" } else w),
         reports := db.reports ++
           [{ id := db.nextReportId, work_order_id := wo,
              report_file := none, generated_at := none }],
         nextReportId := db.nextReportId + 1 }, Except.ok v) := by
  unfold completeInspection
  rw [getWorkOrderChecklist_found db wo inst hinst]
  dsimp only
  rw [hpend]
  simp only [List.length_nil, gt_iff_lt, Nat.lt_irrefl, if_false]
  rw [hnorep]
  simp only [Bool.false_eq_true, if_false]
  unfold getWorkOrderDetails
  split
  · exact ⟨none, rfl⟩
  · split
    · exact ⟨none, rfl⟩
    · unfold getWorkOrderChecklist
      dsimp only
      rw [find?_map_of_pres _ _ _ (completeUpd_pres_wo inst.id now wo), hinst]
      exact ⟨_, rfl⟩

/-- The full behaviour of the handler `complete_inspection` case under the
gate hypotheses: with pending items it replies with their list and mutates
nothing; with none it completes instance and work order, inserts the report
row, and clears the context. -/
theorem completeInspectionCase_spec (db : DB) (ctx : Ctx) (pdfBuf : String)
    (now : Nat) (wo : Nat) (inst : InstanceRow)
    (hwo : ctxGet ctx "currentWorkOrder" = some (CtxVal.num wo))
    (hwo0 : wo ≠ 0)
    (hinst : db.checklist_instances.find? (fun r => r.work_order_id == wo) = some inst)
    (hnorep : db.reports.any (fun r => r.work_order_id == wo) = false) :
    ((checklistItemsView db inst.id).filter (fun it => it.status == "pending") ≠ [] →
      completeInspectionCase db ctx pdfBuf now =
        (db, ctx, formatPendingItemsMessage
          ((checklistItemsView db inst.id).filter (fun it => it.status == "pending")))) ∧
    ((checklistItemsView db inst.id).filter (fun it => it.status == "pending") = [] →
      ((completeInspectionCase db ctx pdfBuf now).1).checklist_instances =
        db.checklist_instances.map (fun r =>
          if r.id == inst.id then
            { r with completed_at := some now, status := "completed" }
          else r) ∧
      ((completeInspectionCase db ctx pdfBuf now).1).checklist_instance_items =
        db.checklist_instance_items ∧
      ((completeInspectionCase db ctx pdfBuf now).1).work_orders =
        db.work_orders.map (fun w =>
          if w.id == wo then { w with status := "completed" } else w) ∧
      ((completeInspectionCase db ctx pdfBuf now).1).conversations = db.conversations ∧
      ((completeInspectionCase db ctx pdfBuf now).1).messages = db.messages ∧
      ((completeInspectionCase db ctx pdfBuf now).1).reports.map (fun r => r.work_order_id) =
        db.reports.map (fun r => r.work_order_id) ++ [wo] ∧
      (completeInspectionCase db ctx pdfBuf now).2.1 =
        ctxSet (ctxSet ctx "currentWorkOrder" CtxVal.null)
          "currentChecklistItem" CtxVal.null ∧
      (completeInspectionCase db ctx pdfBuf now).2.2 =
        "🎉 Inspection completed successfully! The report has been generated and notifications have been sent to the customer and admin.") := by
  have hc : (!(truthy (ctxGet ctx "currentWorkOrder"))) = false := by
    rw [hwo]
    simp [truthy, hwo0]
  have hn : ctxNat ctx "currentWorkOrder" = wo := by
    unfold ctxNat
    rw [hwo]
  constructor
  · intro hpend
    unfold completeInspectionCase
    simp only [hc, Bool.false_eq_true, if_false]
    rw [hn, getWorkOrderChecklist_found db wo inst hinst]
    dsimp only
    have hlen : 0 < ((checklistItemsView db inst.id).filter
        (fun it => it.status == "pending")).length := by
      cases hx : (checklistItemsView db inst.id).filter (fun it => it.status == "pending") with
      | nil => exact absurd hx hpend
      | cons a l => simp
    rw [if_pos hlen]
  · intro hpend
    obtain ⟨v, hpair⟩ := completeInspection_success db wo now inst hinst hpend hnorep
    unfold completeInspectionCase
    simp only [hc, Bool.false_eq_true, if_false]
    rw [hn, getWorkOrderChecklist_found db wo inst hinst]
    dsimp only
    rw [hpend]
    simp only [List.length_nil, gt_iff_lt, Nat.lt_irrefl, if_false]
    rw [hpair]
    dsimp only
    obtain ⟨hi, hii, hw, hcv, hm, hr⟩ :=
      (generateAndStoreReport_frame
        ({ db with
           checklist_instances := db.checklist_instances.map (fun r =>
             if r.id == inst.id then
               { r with completed_at := some now, status := "completed" }
             else r),
           work_orders := db.work_orders.map (fun w =>
             if w.id == wo then { w with status := "completed" } else w),
           reports := db.reports ++
             [{ id := db.nextReportId, work_order_id := wo,
                report_file := none, generated_at := none }],
           nextReportId := db.nextReportId + 1 }) wo pdfBuf now
        ({ inst with completed_at := some now, status := "completed" })
        (by
          show ((db.checklist_instances.map (fun r =>
            if r.id == inst.id then
              { r with completed_at := some now, status := "completed" }
            else r)).find? (fun r => r.work_order_id == wo)) = _
          rw [find?_map_of_pres _ _ _ (completeUpd_pres_wo inst.id now wo), hinst]
          simp))
    refine ⟨?_, ?_, ?_, ?_, ?_, ?_, rfl, rfl⟩
    · exact hi
    · exact hii
    · exact hw
    · exact hcv
    · exact hm
    · rw [hr]
      simp

/-- C1 — the `complete_inspection` transition succeeds iff no item of the
current instance is pending.  With pending items the reply lists them and the
workflow state (instances, items, work orders, reports, media, context) is
unchanged; with none, the instance and work order are marked completed, the
report row is inserted (the generate-report trigger), and the context's
current work order and item are cleared. -/
theorem C1_complete_inspection_gate (db : DB) (msg : InMessage)
    (intentData : IntentData) (genReply today pdfBuf : String) (now : Nat)
    (insp : UserRow) (conv : ConversationRow) (inst : InstanceRow) (wo : Nat)
    (hinsp : findInspectorByWhatsAppId db msg.sender = some insp)
    (hconv : db.conversations.find? (fun c => c.user_id == insp.id && c.active) = some conv)
    (hwo : ctxGet conv.context "currentWorkOrder" = some (CtxVal.num wo))
    (hwo0 : wo ≠ 0)
    (hinst : db.checklist_instances.find? (fun r => r.work_order_id == wo) = some inst)
    (hnorep : db.reports.any (fun r => r.work_order_id == wo) = false)
    (hintent : intentData.intent = "complete_inspection") :
    ((checklistItemsView db inst.id).filter (fun it => it.status == "pending") = [] →
      ((processTextMessage db msg intentData genReply today pdfBuf now).1).checklist_instances =
        db.checklist_instances.map (fun r =>
          if r.id == inst.id then
            { r with completed_at := some now, status := "completed" }
          else r) ∧
      ((processTextMessage db msg intentData genReply today pdfBuf now).1).checklist_instance_items =
        db.checklist_instance_items ∧
      ((processTextMessage db msg intentData genReply today pdfBuf now).1).work_orders =
        db.work_orders.map (fun w =>
          if w.id == wo then { w with status := "completed" } else w) ∧
      ((processTextMessage db msg intentData genReply today pdfBuf now).1).reports.map
          (fun r => r.work_order_id) =
        db.reports.map (fun r => r.work_order_id) ++ [wo] ∧
      ((processTextMessage db msg intentData genReply today pdfBuf now).1).conversations =
        db.conversations.map (fun c =>
          if c.id == conv.id then
            { c with
              context := ctxSet (ctxSet conv.context "currentWorkOrder" CtxVal.null)
                "currentChecklistItem" CtxVal.null,
              last_message_at := now }
          else c) ∧
      (processTextMessage db msg intentData genReply today pdfBuf now).2.text =
        "🎉 Inspection completed successfully! The report has been generated and notifications have been sent to the customer and admin.") ∧
    ((checklistItemsView db inst.id).filter (fun it => it.status == "pending") ≠ [] →
      ((processTextMessage db msg intentData genReply today pdfBuf now).1).checklist_instances =
        db.checklist_instances ∧
      ((processTextMessage db msg intentData genReply today pdfBuf now).1).checklist_instance_items =
        db.checklist_instance_items ∧
      ((processTextMessage db msg intentData genReply today pdfBuf now).1).work_orders =
        db.work_orders ∧
      ((processTextMessage db msg intentData genReply today pdfBuf now).1).reports =
        db.reports ∧
      ((processTextMessage db msg intentData genReply today pdfBuf now).1).media =
        db.media ∧
      ((processTextMessage db msg intentData genReply today pdfBuf now).1).conversations =
        db.conversations.map (fun c =>
          if c.id == conv.id then
            { c with context := conv.context, last_message_at := now }
          else c) ∧
      (processTextMessage db msg intentData genReply today pdfBuf now).2.text =
        formatPendingItemsMessage
          ((checklistItemsView db inst.id).filter (fun it => it.status == "pending"))) := by
  unfold processTextMessage
  rw [hinsp]
  dsimp only
  unfold getOrCreateConversation
  rw [hconv]
  dsimp only
  unfold dispatchIntent
  rw [hintent]
  simp only [show (("complete_inspection" : String) == "greeting") = false from rfl,
    show (("complete_inspection" : String) == "view_jobs") = false from rfl,
    show (("complete_inspection" : String) == "start_inspection") = false from rfl,
    show (("complete_inspection" : String) == "update_item") = false from rfl,
    show (("complete_inspection" : String) == "add_comment") = false from rfl,
    show (("complete_inspection" : String) == "complete_item") = false from rfl,
    show (("complete_inspection" : String) == "issue_found") = false from rfl,
    show (("complete_inspection" : String) == "complete_inspection") = true from rfl,
    Bool.false_eq_true, if_false, if_true]
  have hspec := completeInspectionCase_spec
    ((storeMessage db
      { conversation_id := conv.id, sender_id := insp.id, message_type := "text",
        content := msg.content, whatsapp_message_id := msg.messageId }).1)
    conv.context pdfBuf now wo inst hwo hwo0 hinst hnorep
  constructor
  · intro hpend
    obtain ⟨h1, h2, h3, h4, h5, h6, h7, h8⟩ := hspec.2 hpend
    refine ⟨?_, ?_, ?_, ?_, ?_, ?_⟩
    · simp only [updateConversationContext]
      rw [h1]
      rfl
    · simp only [updateConversationContext]
      rw [h2]
      rfl
    · simp only [updateConversationContext]
      rw [h3]
      rfl
    · simp only [updateConversationContext]
      rw [h6]
      rfl
    · simp only [updateConversationContext]
      rw [h4, h7]
      rfl
    · dsimp only
      exact h8
  · intro hpend
    have hstep := hspec.1 hpend
    rw [hstep]
    simp only [updateConversationContext]
    exact ⟨rfl, rfl, rfl, rfl, rfl, rfl, rfl⟩

/-- C1 witness — the gate theorem applied to the in-progress fixture, whose
single item is still pending: the reports table is untouched. -/
theorem C1_complete_inspection_gate_witness :
    (checklistItemsView inProgressDB 1).filter (fun it => it.status == "pending") ≠ [] ∧
    ((processTextMessage inProgressDB helloMsg completeInspectionIntent
        "fallback" "2025-01-02" "pdfbytes" 7).1).reports = inProgressDB.reports := by
  constructor
  · decide
  · exact ((C1_complete_inspection_gate inProgressDB helloMsg
      completeInspectionIntent "fallback" "2025-01-02" "pdfbytes" 7 joeInspector
      { id := 1, user_id := 1, context := [("currentWorkOrder", CtxVal.num 1)],
        active := true, last_message_at := 0 }
      { id := 1, work_order_id := 1, status := "in_progress",
        started_at := some 0, completed_at := none } 1
      rfl rfl rfl (by decide) rfl rfl rfl).2 (by decide)).2.2.2.1

end PropSteward
